import Mathlib

/-!
# YAD dialog lifecycle: termination arbitration and result emission

A shallow embedding of the control core of `src/main.c`: the callbacks that
feed the result code `ret` (`keys_cb`, `btn_cb`, `timeout_cb`, `unfocus_cb`,
the two signal handlers, `yad_exit`), the part of `main` that runs after
the main loop (the result printing gate and the parent signalling), and the
window assembly (`create_layout`, and the content box, button bar and final
placement of `create_dialog`).

The process state that the callbacks share is made explicit (`State`), and the
calls into GTK and into the other translation units of YAD are recorded, in
program order, in an effect log, so that "is invoked", "is invoked once" and
"is never consulted" are statements about that log.
-/

namespace Yad

/-! ## Data model -/

/-- The dialog modes (`YadDialogMode`, tested as `options.mode` in `main.c`). -/
inductive YadMode
  | about | calendar | color | dnd | entry | file | font | form | html | icons
  | list | notebook | notification | paned | picture | print | progress
  | scale | textinfo | version
  deriving DecidableEq, Repr

/-- The four response codes `YAD_RESPONSE_OK`, `YAD_RESPONSE_CANCEL`,
`YAD_RESPONSE_ESC` and `YAD_RESPONSE_TIMEOUT` used by `main.c`. Their values are
fixed in `yad.h`, which is not part of the sources at hand, so they are taken
as a parameter of every definition that mentions them. -/
structure YadResponse where
  ok : Int
  cancel : Int
  esc : Int
  timeout : Int
  deriving DecidableEq, Repr

/-- Modelled from the spec: the values of the response codes, which `yad.h`
(missing) defines; section 6 lists them as 0 = OK, 1 = Cancel, 252 = Escape,
253 = Timeout. Used for concrete evaluations only. -/
def specResponse : YadResponse := { ok := 0, cancel := 1, esc := 252, timeout := 253 }

/-- One entry of `options.data.buttons` (`YadButton`): label, optional shell
command, response code. -/
structure YadButton where
  name : String
  cmd : Option String
  response : Int
  deriving DecidableEq, Repr

/-- The fields of `options.data` read by the modelled code. `timeout` is the
budget in seconds; it is compared with the `guint` tick counter and printed
with `%d`, and is kept as a natural number. A `gchar *` field is an optional
string (`none` for NULL), and `buttons = []` is the NULL list. -/
structure YadData where
  def_resp : Int
  escape_ok : Bool
  no_escape : Bool
  close_on_unfocus : Bool
  always_print : Bool
  buttons : List YadButton
  timeout : Nat
  no_buttons : Bool := false
  to_indicator : Option String := none
  dialog_image : Option String := none
  dialog_text : Option String := none
  expander : Option String := none
  image_on_top : Bool := false
  maximized : Bool := false
  fullscreen : Bool := false
  center : Bool := false
  use_posx : Bool := false
  use_posy : Bool := false
  posx : Int := 0
  posy : Int := 0
  width : Int := -1
  height : Int := -1
  deriving DecidableEq, Repr

/-- The fields of `options` read by the modelled code; `autokill` stands for
`options.progress_data.autokill`, `dnd_tooltip` for `options.dnd_data.tooltip`,
`html_browser` for `options.html_data.browser`, and `plug = -1` means a
standalone dialog. -/
structure YadOptions where
  mode : YadMode
  plug : Int
  data : YadData
  kill_parent : Int
  autokill : Bool
  dnd_tooltip : Bool := false
  html_browser : Bool := false
  deriving DecidableEq, Repr

/-- The field of `settings` read by `timeout_cb`. -/
structure YadSettings where
  show_remain : Bool
  deriving DecidableEq, Repr

/-- The two fields of a `GdkEventKey` read by `keys_cb`. -/
structure GdkEventKey where
  keyval : Nat
  state : Nat
  deriving DecidableEq, Repr

/-- Key symbol of the Escape key (gdkkeysyms.h). -/
def GDK_KEY_Escape : Nat := 0xff1b
/-- Key symbol of the Return key (gdkkeysyms.h). -/
def GDK_KEY_Return : Nat := 0xff0d
/-- Key symbol of the keypad Enter key (gdkkeysyms.h). -/
def GDK_KEY_KP_Enter : Nat := 0xff8d
/-- Modifier bit of the Control key (`1 << 2` in `GdkModifierType`). -/
def GDK_CONTROL_MASK : Nat := 4

/-- Signal number of SIGHUP (signal.h). -/
def SIGHUP : Int := 1
/-- Number of signals plus one (signal.h, Linux). -/
def NSIG : Int := 65

/-- Calls that leave `main.c`, in the order the program makes them. -/
inductive Effect
  /-- The call `gtk_main_quit ()`: the main loop is asked to end. -/
  | main_quit
  /-- The call `file_confirm_overwrite (dialog)`: the overwrite confirmation is consulted. -/
  | confirm_overwrite
  /-- The call `run_command_async (cmd)`. -/
  | run_command_async (cmd : String)
  /-- Entry into `yad_print_result ()`. -/
  | print_result_call
  /-- The result producer of a mode (`calendar_print_result ()` and so on). -/
  | mode_print_result (m : YadMode)
  /-- The call `gtk_progress_bar_set_fraction (w, q)`; `q` is the value of the
  `gdouble` that is passed. -/
  | set_fraction (q : ℚ)
  /-- The call `gtk_progress_bar_set_text (w, "<n> sec")`. -/
  | set_text (n : Int)
  /-- The call `notebook_close_childs ()`. -/
  | notebook_close_childs
  /-- The call `paned_close_childs ()`. -/
  | paned_close_childs
  /-- The call `kill (getppid (), sig)`. -/
  | kill_ppid (sig : Int)
  deriving DecidableEq

/-- The mutable state shared by the modelled functions: the global `ret`, the
`static guint count` of `timeout_cb`, and the effect log. -/
structure State where
  ret : Int
  count : Nat
  log : List Effect
  deriving DecidableEq

/-- State at program start: `ret = YAD_RESPONSE_ESC`, `count = 1`, nothing
called yet. -/
def init (K : YadResponse) : State := { ret := K.esc, count := 1, log := [] }

/-- Append one effect to the log. -/
def emit (e : Effect) (s : State) : State := { s with log := s.log ++ [e] }

/-- How many times effect `e` occurs in the log of `s`. -/
def occurrences (e : Effect) (s : State) : Nat := s.log.count e

/-- The value of `x & 1` for a two's complement `gint`: the lowest bit, 0 when
`x` is even and 1 when it is odd, for negative `x` too. -/
def land1 (x : Int) : Int := x % 2

/-- Range of a `guint`. -/
def G_UINT_RANGE : Nat := 2 ^ 32

/-- The `int` that `printf ("%d")` shows for a `guint` value `v`. -/
def as_gint (v : Nat) : Int :=
  if v % G_UINT_RANGE < 2 ^ 31 then (v % G_UINT_RANGE : Nat) else (v % G_UINT_RANGE : Nat) - 2 ^ 32

/-! ## The modelled functions -/

/-- The call `gtk_main_quit ()`. -/
def gtk_main_quit (s : State) : State := emit .main_quit s

/-- The call `file_confirm_overwrite (dialog)` (file.c): it asks the user and
returns the answer; `ow` is the answer given at this call. -/
def file_confirm_overwrite (ow : Bool) (s : State) : Bool × State :=
  (ow, emit .confirm_overwrite s)

/-- Embedding of `yad_exit (id)`, main.c lines 155-167. -/
def yad_exit (o : YadOptions) (ow : Bool) (id : Int) (s : State) : State :=
  if o.mode = .file ∧ land1 id = 0 then
    let r := file_confirm_overwrite ow s
    if r.1 = false then r.2
    else gtk_main_quit { r.2 with ret := id }
  else gtk_main_quit { s with ret := id }

/-- Embedding of `yad_print_result ()`, main.c lines 786-826. -/
def yad_print_result (o : YadOptions) (s : State) : State :=
  let s1 := emit .print_result_call s
  match o.mode with
  | .calendar => emit (.mode_print_result .calendar) s1
  | .color => emit (.mode_print_result .color) s1
  | .entry => emit (.mode_print_result .entry) s1
  | .file => emit (.mode_print_result .file) s1
  | .font => emit (.mode_print_result .font) s1
  | .form => emit (.mode_print_result .form) s1
  | .list => emit (.mode_print_result .list) s1
  | .notebook => emit (.mode_print_result .notebook) s1
  | .paned => emit (.mode_print_result .paned) s1
  | .scale => emit (.mode_print_result .scale) s1
  | .textinfo => emit (.mode_print_result .textinfo) s1
  | _ => s1

/-- Embedding of `sa_usr1`, main.c lines 51-58. -/
def sa_usr1 (o : YadOptions) (ow : Bool) (s : State) : State :=
  if o.plug ≠ -1 then yad_print_result o s
  else yad_exit o ow o.data.def_resp s

/-- Embedding of `sa_usr2`, main.c lines 60-67. -/
def sa_usr2 (K : YadResponse) (o : YadOptions) (ow : Bool) (s : State) : State :=
  if o.plug ≠ -1 then gtk_main_quit s
  else yad_exit o ow K.cancel s

/-- Embedding of `keys_cb`, main.c lines 70-93; the second component is the
returned `gboolean` (TRUE: the key press is handled). -/
def keys_cb (K : YadResponse) (o : YadOptions) (ow : Bool) (ev : GdkEventKey) (s : State) :
    State × Bool :=
  if o.plug ≠ -1 then (s, false)
  else if ev.keyval = GDK_KEY_Escape then
    if o.data.escape_ok then (yad_exit o ow o.data.def_resp s, true)
    else if !o.data.no_escape then (yad_exit o ow K.esc s, true)
    else (s, true)
  else if ev.keyval = GDK_KEY_Return ∨ ev.keyval = GDK_KEY_KP_Enter then
    if ev.state &&& GDK_CONTROL_MASK ≠ 0 then (yad_exit o ow o.data.def_resp s, true)
    else (s, false)
  else (s, false)

/-- Embedding of `btn_cb (b, cmd)`, main.c lines 95-105; `resp` is the value
stored on the button widget under the key "resp". -/
def btn_cb (o : YadOptions) (ow : Bool) (resp : Int) (cmd : Option String) (s : State) : State :=
  match cmd with
  | some c => emit (.run_command_async c) s
  | none => yad_exit o ow resp s

/-- Rounding of a rational to the nearest integer, ties to the even one. -/
def round_half_even (y : ℚ) : Int :=
  if y - ⌊y⌋ < 1 / 2 then ⌊y⌋
  else if 1 / 2 < y - ⌊y⌋ then ⌊y⌋ + 1
  else if ⌊y⌋ % 2 = 0 then ⌊y⌋ else ⌊y⌋ + 1

/-- The `gdouble` (IEEE 754 binary64, round to nearest, ties to even) that an
arithmetic operation with exact result `x` returns, as a rational: `x` is
rounded to 53 significant bits. Exponent limits are not modelled, so this is
the `gdouble` for `x = 0` and for `x` of normal size (between `2 ^ (-1022)` and
`2 ^ 1024` in absolute value). -/
def round_gdouble (x : ℚ) : ℚ :=
  if x = 0 then 0
  else if 0 < x then
    (round_half_even (x / 2 ^ (Int.log 2 x - 52)) : ℚ) * 2 ^ (Int.log 2 x - 52)
  else
    -((round_half_even (-x / 2 ^ (Int.log 2 (-x) - 52)) : ℚ) * 2 ^ (Int.log 2 (-x) - 52))

/-- Embedding of `timeout_cb (data)`, main.c lines 107-134; `w` tells whether
`data` is an indicator widget (non-NULL), the second component is the returned
`gboolean` (TRUE: the timer keeps recurring). In `percent`, the conversions of
`timeout` and `count` to `gdouble` and their difference are exact (integers
below `2 ^ 53`); the division rounds. -/
def timeout_cb (K : YadResponse) (o : YadOptions) (st : YadSettings) (ow : Bool) (w : Bool)
    (s : State) : State × Bool :=
  if o.data.timeout < s.count then (yad_exit o ow K.timeout s, false)
  else
    let s1 :=
      if w then
        let percent : ℚ :=
          round_gdouble (((o.data.timeout : ℚ) - (s.count : ℚ)) / (o.data.timeout : ℚ))
        let s2 := emit (.set_fraction percent) s
        if st.show_remain then
          emit (.set_text (as_gint (o.data.timeout + G_UINT_RANGE - s.count))) s2
        else s2
      else s
    ({ s1 with count := (s1.count + 1) % G_UINT_RANGE }, true)

/-- Embedding of `unfocus_cb`, main.c lines 136-142. -/
def unfocus_cb (o : YadOptions) (s : State) : State × Bool :=
  (if o.data.close_on_unfocus then gtk_main_quit s else s, false)

/-- The handler of the window's "delete-event": `create_dialog` connects the
signal to `gtk_main_quit` itself (main.c line 425). -/
def delete_event (s : State) : State := gtk_main_quit s

/-- Embedding of the result printing of `main`, lines 1050-1064. -/
def print_results (K : YadResponse) (o : YadOptions) (s : State) : State :=
  if s.ret ≠ K.timeout ∧ s.ret ≠ K.esc then
    if o.data.always_print then yad_print_result o s
    else if s.ret = K.ok ∧ o.data.buttons.isEmpty then yad_print_result o s
    else if land1 s.ret = 0 then yad_print_result o s
    else s
  else s

/-- Embedding of `main` after `gtk_main ()` returns in the default branch,
lines 1050-1085 (non-Windows build); the second component is the value `main`
returns. -/
def main_after_loop (K : YadResponse) (o : YadOptions) (s : State) : State × Int :=
  let s1 := print_results K o s
  let s2 :=
    if o.mode = .notebook then emit .notebook_close_childs s1
    else if o.mode = .paned then emit .paned_close_childs s1
    else s1
  let s3 :=
    if o.kill_parent = 0 then
      if o.mode = .progress ∧ o.autokill = true ∧ s2.ret ≠ K.ok then emit (.kill_ppid SIGHUP) s2
      else s2
    else s2
  let s4 :=
    if 0 < o.kill_parent ∧ o.kill_parent < NSIG then emit (.kill_ppid o.kill_parent) s3
    else s3
  (s4, s4.ret)

/-! ## Events -/

/-- The events that reach the callbacks while the dialog is up. `ow` is the
answer the user gives if the overwrite confirmation is shown while the event is
handled, `w` tells whether the timer carries an indicator widget. -/
inductive Event
  | key (ev : GdkEventKey) (ow : Bool)
  | button (resp : Int) (cmd : Option String) (ow : Bool)
  | delete
  | unfocus
  | usr1 (ow : Bool)
  | usr2 (ow : Bool)
  | tick (w : Bool) (ow : Bool)
  deriving DecidableEq

/-- Run the callback connected to an event. -/
def dispatch (K : YadResponse) (o : YadOptions) (st : YadSettings) (e : Event) (s : State) :
    State :=
  match e with
  | .key ev ow => (keys_cb K o ow ev s).1
  | .button resp cmd ow => btn_cb o ow resp cmd s
  | .delete => delete_event s
  | .unfocus => (unfocus_cb o s).1
  | .usr1 ow => sa_usr1 o ow s
  | .usr2 ow => sa_usr2 K o ow s
  | .tick w ow => (timeout_cb K o st ow w s).1

/-- Run the callbacks of a sequence of events, in arrival order. -/
def run (K : YadResponse) (o : YadOptions) (st : YadSettings) (es : List Event) (s : State) :
    State :=
  es.foldl (fun acc e => dispatch K o st e acc) s

/-- The state after `n` invocations of `timeout_cb` and nothing else. -/
def ticks (K : YadResponse) (o : YadOptions) (st : YadSettings) (ow : Bool) (w : Bool) :
    Nat → State → State
  | 0, s => s
  | n + 1, s => (timeout_cb K o st ow w (ticks K o st ow w n s)).1

/-- A configuration for concrete evaluations: standalone Entry dialog, no
custom buttons, default response 0, no timeout. -/
def sampleOptions : YadOptions :=
  { mode := .entry, plug := -1,
    data := { def_resp := 0, escape_ok := false, no_escape := false, close_on_unfocus := false,
              always_print := false, buttons := [], timeout := 0 },
    kill_parent := 0, autokill := false }

/-- A close event or an unfocus event. -/
def is_close_or_unfocus (e : Event) : Prop := e = .delete ∨ e = .unfocus

/-- The effects of one invocation of `timeout_cb` within the budget. -/
def tick_effects (o : YadOptions) (st : YadSettings) (w : Bool) (c : Nat) : List Effect :=
  if w then
    .set_fraction (round_gdouble (((o.data.timeout : ℚ) - (c : ℚ)) / (o.data.timeout : ℚ))) ::
      (if st.show_remain then [.set_text (as_gint (o.data.timeout + G_UINT_RANGE - c))] else [])
  else []

/-- Options of the counterexample to C2: the sample dialog (no custom buttons,
always_print off) with default response 2. -/
def optionsDefResp2 : YadOptions :=
  { sampleOptions with data := { sampleOptions.data with def_resp := 2 } }

/-- Control+Return. -/
def ctrlReturn : GdkEventKey := { keyval := GDK_KEY_Return, state := GDK_CONTROL_MASK }

/-- A custom button without command and with the even response code 2. -/
def saveButton : YadButton := { name := "Save", cmd := none, response := 2 }

/-- Options of the counterexample to C3: a File dialog whose custom button list
holds `saveButton` only. -/
def fileOptions : YadOptions :=
  { sampleOptions with
    mode := .file, data := { sampleOptions.data with buttons := [saveButton] } }

/-- The sample dialog with a timeout budget of 3 seconds. -/
def timeout3Options : YadOptions :=
  { sampleOptions with data := { sampleOptions.data with timeout := 3, always_print := true } }

/-- The sample dialog run as a plug (`plug = 0`), default response 0. -/
def plugOptions : YadOptions := { sampleOptions with plug := 0 }

/-! ## Window assembly -/

/-- What the toolkit and the build contribute to `create_layout` and
`create_dialog`: whether the build defines `HAVE_HTML`, the answer of
`gtk_alternative_dialog_button_order (NULL)`, and, per mode, whether the mode's
`*_create_widget (dlg)` returns a widget (rather than NULL). -/
structure Toolkit where
  have_html : Bool
  alternative_order : Bool
  widget_built : YadMode → Bool

/-- The result of `strcasecmp (a, b) == 0`: equality of the two strings up to
the case of ASCII letters. -/
def strcasecmp_eq (a b : String) : Bool :=
  a.data.map Char.toLower == b.data.map Char.toLower

/-- A `GtkBox`: its orientation and its children, those added with
`gtk_box_pack_start` and those added with `gtk_box_pack_end`, each in call
order. -/
structure Box (α : Type) where
  vertical : Bool
  starts : List α
  ends : List α
  deriving DecidableEq, Repr

/-- The call `gtk_box_pack_start (box, child, ...)`. -/
def Box.pack_start {α : Type} (b : Box α) (child : α) : Box α :=
  { b with starts := b.starts ++ [child] }

/-- The call `gtk_box_pack_end (box, child, ...)`. -/
def Box.pack_end {α : Type} (b : Box α) (child : α) : Box α :=
  { b with ends := b.ends ++ [child] }

/-- The widgets that `create_layout` puts into its boxes: the image, the text
label (with the configured text), the mode widget, and the expander that holds
the mode widget (`expanded` is its initial state). -/
inductive Leaf
  | image
  | label (text : String)
  | main_widget (m : YadMode)
  | expander (caption : String) (expanded : Bool) (child : YadMode)
  deriving DecidableEq, Repr

/-- A child of the outer box of `create_layout`: a widget, or the inner box. -/
inductive LayoutChild
  | leaf (l : Leaf)
  | box (b : Box Leaf)
  deriving DecidableEq, Repr

/-- The region returned by `create_layout`: the outer box. -/
abbrev Layout := Box LayoutChild

/-- The timeout indicator `topb`: its fraction, its orientation, and the number
of seconds shown as its text, if any. -/
structure ProgressBar where
  fraction : ℚ
  vertical : Bool
  text : Option Int
  deriving DecidableEq

/-- A child of the box `cbox` of `create_dialog`. -/
inductive CChild
  | indicator (pb : ProgressBar)
  | layout (l : Layout)
  deriving DecidableEq

/-- A button of the button bar, as `create_dialog` wires it: its label, the
value stored under "resp", and the command handed to `btn_cb` on "clicked". -/
structure GtkButton where
  label : String
  resp : Int
  cmd : Option String
  deriving DecidableEq, Repr

/-- A child of the content box `vbox` of `create_dialog`. -/
inductive VChild
  | layout (l : Layout)
  | cbox (b : Box CChild)
  | bbox (buttons : List GtkButton)
  deriving DecidableEq

/-- The switch "create main widget" of `create_layout`, main.c lines 227-280:
the mode widget `mw`, if any. -/
def create_main_widget (tk : Toolkit) (o : YadOptions) : Option YadMode :=
  let made (m : YadMode) : Option YadMode := if tk.widget_built m then some m else none
  match o.mode with
  | .calendar => made .calendar
  | .color => made .color
  | .entry => made .entry
  | .file => made .file
  | .font => made .font
  | .form => made .form
  | .html => if tk.have_html then made .html else none
  | .icons => made .icons
  | .list => made .list
  | .notebook => if o.plug = -1 then made .notebook else none
  | .paned => if o.plug = -1 then made .paned else none
  | .picture => made .picture
  | .progress => made .progress
  | .scale => made .scale
  | .textinfo => made .textinfo
  | _ => none

/-- The section "create image" of `create_layout`, main.c lines 176-193: the
image widget, built when `dialog_image` is set. -/
def layout_image (o : YadOptions) : Option Leaf :=
  if o.data.dialog_image.isSome then some .image else none

/-- The section "create text label" of `create_layout`, main.c lines 195-225:
the label `text`, built when `dialog_text` is set, except for the tooltip of a
drag-and-drop dialog. -/
def layout_text (o : YadOptions) : Option Leaf :=
  match o.data.dialog_text with
  | some t => if o.mode ≠ .dnd ∨ o.dnd_tooltip = false then some (.label t) else none
  | none => none

/-- The section "add expander" of `create_layout`, main.c lines 282-295: `imw`,
the mode widget inside a collapsed expander when both the widget and an
expander caption exist, else the mode widget itself, if any. -/
def layout_imw (tk : Toolkit) (o : YadOptions) : Option Leaf :=
  match create_main_widget tk o, o.data.expander with
  | some m, some cap => some (.expander cap false m)
  | some m, none => some (.main_widget m)
  | none, _ => none

/-- Embedding of `create_layout`, main.c lines 169-341, as far as the widget
tree goes (widget names, alignment and label attributes are left out, and so
is the call `dnd_init (layout)`). -/
def create_layout (tk : Toolkit) (o : YadOptions) : Layout :=
  let image := layout_image o
  let text := layout_text o
  let imw := layout_imw tk o
  if o.data.image_on_top then
    let layout : Layout := { vertical := true, starts := [], ends := [] }
    let box : Box Leaf := { vertical := false, starts := [], ends := [] }
    let box := match image with
      | some i => box.pack_start i
      | none => box
    let box := match text with
      | some t => box.pack_start t
      | none => box
    let layout := layout.pack_start (.box box)
    match imw with
    | some w => layout.pack_start (.leaf w)
    | none => layout
  else
    let layout : Layout := { vertical := false, starts := [], ends := [] }
    let box : Box Leaf := { vertical := true, starts := [], ends := [] }
    let box := match text with
      | some t => box.pack_start t
      | none => box
    let box := match imw with
      | some w => box.pack_start w
      | none => box
    let layout := match image with
      | some i => layout.pack_start (.leaf i)
      | none => layout
    layout.pack_start (.box box)

/-- The timeout indicator of `create_dialog`, main.c lines 476-481 and 486-545:
`topb`, built when `to_indicator` is set and is not "none"; it starts full, is
vertical for "left" and "right", and shows the budget when show_remain is
set. -/
def create_indicator (o : YadOptions) (st : YadSettings) : Option ProgressBar :=
  match o.data.to_indicator with
  | some t =>
    if strcasecmp_eq t "none" = false then
      some { fraction := 1,
             vertical := strcasecmp_eq t "left" || strcasecmp_eq t "right",
             text := if st.show_remain then some (as_gint o.data.timeout) else none }
    else none
  | none => none

/-- The box `cbox` of `create_dialog`, main.c lines 474-555: the indicator and
the layout for the placements "top", "bottom", "left" and "right", nothing
(NULL) for any other placement of a built indicator, and the layout alone when
no indicator is built. -/
def create_cbox (o : YadOptions) (st : YadSettings) (layout : Layout) : Option (Box CChild) :=
  match create_indicator o st with
  | some topb =>
    let t := o.data.to_indicator.getD ""
    if strcasecmp_eq t "top" then
      some ((Box.mk true [] []).pack_start (.indicator topb) |>.pack_end (.layout layout))
    else if strcasecmp_eq t "bottom" then
      some ((Box.mk true [] []).pack_start (.layout layout) |>.pack_end (.indicator topb))
    else if strcasecmp_eq t "left" then
      some ((Box.mk false [] []).pack_start (.indicator topb) |>.pack_end (.layout layout))
    else if strcasecmp_eq t "right" then
      some ((Box.mk false [] []).pack_start (.layout layout) |>.pack_end (.indicator topb))
    else none
  | none => some ((Box.mk true [] []).pack_start (.layout layout))

/-- The button bar of `create_dialog`, main.c lines 566-651: `none` when
buttons are suppressed, else the buttons packed into `bbox`, in order. -/
def create_buttons (K : YadResponse) (tk : Toolkit) (o : YadOptions) : Option (List GtkButton) :=
  let no_buttons : Bool :=
    if tk.have_html ∧ o.mode = .html ∧ o.html_browser = true ∧ o.data.buttons.isEmpty then true
    else o.data.no_buttons
  if no_buttons = false then
    if o.data.buttons.isEmpty = false then
      some (o.data.buttons.map fun b => { label := b.name, resp := b.response, cmd := b.cmd })
    else if o.mode = .progress ∨ o.mode = .dnd ∨ o.mode = .picture then
      some [{ label := "gtk-close", resp := K.ok, cmd := none }]
    else if tk.alternative_order then
      some [{ label := "gtk-ok", resp := K.ok, cmd := none },
            { label := "gtk-cancel", resp := K.cancel, cmd := none }]
    else
      some [{ label := "gtk-cancel", resp := K.cancel, cmd := none },
            { label := "gtk-ok", resp := K.ok, cmd := none }]
  else none

/-- What `create_dialog` assembles, main.c lines 461-651: the children of the
content box `vbox`, and the widget argument of the timer when
`g_timeout_add_seconds (1, timeout_cb, topb)` is called. -/
structure Dialog where
  vbox : Box VChild
  timer : Option (Option ProgressBar)

/-- Embedding of the content assembly of `create_dialog`, main.c lines
461-651. -/
def create_dialog (K : YadResponse) (tk : Toolkit) (o : YadOptions) (st : YadSettings) : Dialog :=
  let vbox : Box VChild := { vertical := true, starts := [], ends := [] }
  let layout := create_layout tk o
  let d : Dialog :=
    if o.data.timeout ≠ 0 then
      let vbox := match create_cbox o st layout with
        | some cbox => vbox.pack_start (.cbox cbox)
        | none => vbox
      { vbox := vbox, timer := some (create_indicator o st) }
    else { vbox := vbox.pack_start (.layout layout), timer := none }
  match create_buttons K tk o with
  | some bs => { d with vbox := d.vbox.pack_start (.bbox bs) }
  | none => d

/-- The buttons of the button bar of the assembled dialog (none when buttons
are suppressed). -/
def button_bar (K : YadResponse) (tk : Toolkit) (o : YadOptions) : List GtkButton :=
  (create_buttons K tk o).getD []

/-- The "clicked" handler of a button of the bar: `btn_cb` with the command the
button was connected with. -/
def clicked (o : YadOptions) (ow : Bool) (w : GtkButton) (s : State) : State :=
  btn_cb o ow w.resp w.cmd s

/-- How many times the region `l` is packed in the assembled content: directly
in `vbox`, or in a `cbox` that is in `vbox`. -/
def layout_packings (l : Layout) (d : Dialog) : Nat :=
  ((d.vbox.starts ++ d.vbox.ends).map fun c =>
    match c with
    | .layout l' => if l' = l then 1 else 0
    | .cbox b => (b.starts ++ b.ends).count (.layout l)
    | .bbox _ => 0).sum

/-- The measurements that the window system reports to the final placement of
`create_dialog`: the window size after the first resize (`cw`, `ch`), the
window size before the move (`ww`, `wh`), the size of the root window (`sw`,
`sh`), and the current window position (`cur_x`, `cur_y`). -/
structure WindowSystem where
  cw : Int
  ch : Int
  ww : Int
  wh : Int
  sw : Int
  sh : Int
  cur_x : Int
  cur_y : Int
  deriving DecidableEq, Repr

/-- The range of a `gint` (32 bits, two's complement). -/
def is_gint (x : Int) : Prop := -2147483648 ≤ x ∧ x ≤ 2147483647

/-- The `gint` that the compiled code holds when the exact result of an
addition or subtraction is `x`: `x` itself inside the range, wrapped around
modulo `2 ^ 32` outside. -/
def wrap_gint (x : Int) : Int := (x + 2147483648) % 4294967296 - 2147483648

/-- Embedding of the final placement of `create_dialog`, main.c lines 666-717,
from the options as `parse_geometry ()` leaves them: the arguments of
`gtk_window_move`, or `none` when the window is not moved. Every `gint`
addition and subtraction is wrapped (`wrap_gint`); `/` is C's division, which
truncates. -/
def final_placement (o : YadOptions) (ws : WindowSystem) : Option (Int × Int) :=
  if o.data.maximized = false ∧ o.data.fullscreen = false then
    let width := if o.data.width = -1 then ws.cw else o.data.width
    let height := if o.data.height = -1 then ws.ch else o.data.height
    if o.data.use_posx ∨ o.data.use_posy ∨ o.data.center then
      if o.data.center then
        some (Int.tdiv (wrap_gint (ws.sw - width)) 2, Int.tdiv (wrap_gint (ws.sh - height)) 2)
      else
        let posx := if o.data.use_posx = false then ws.cur_x else o.data.posx
        let posy := if o.data.use_posy = false then ws.cur_y else o.data.posy
        let posx := if posx < 0 then wrap_gint (wrap_gint (ws.sw - ws.ww) + posx) else posx
        let posy := if posy < 0 then wrap_gint (wrap_gint (ws.sh - ws.wh) + posy) else posy
        some (posx, posy)
    else none
  else none

/-- What the platform and the build contribute to the end of `main`: whether
the GDK backend is X11 (`is_x11`), and whether the build defines `HAVE_TRAY`. -/
structure Platform where
  is_x11 : Bool
  have_tray : Bool
  deriving DecidableEq, Repr

/-- Embedding of `main` from the plug test to its end, lines 973-1085
(non-Windows build). `s` is the state when `gtk_main ()` returns, for the
branches that run it, and the state before the switch for the others; `ext`
is the value returned by `yad_about ()`, `yad_notification_run ()` or
`yad_print_run ()`. The second component is the value `main` returns. In plug
mode `main` returns `ret` right after the loop; outside X11 it returns 1 for
Notebook, Paned and (with `HAVE_TRAY`) Notification before the switch; the
default branch of the switch and the kill-parent signal after it are
`main_after_loop`. -/
def main_exit (K : YadResponse) (pf : Platform) (o : YadOptions) (ext : Int) (s : State) :
    State × Int :=
  let plug : Int := if pf.is_x11 = false ∧ o.plug ≠ -1 then -1 else o.plug
  if plug ≠ -1 then (s, s.ret)
  else if pf.is_x11 = false ∧
      (o.mode = .notebook ∨ o.mode = .paned ∨ (pf.have_tray = true ∧ o.mode = .notification)) then
    (s, 1)
  else
    let special (r : Int) : State × Int :=
      let s1 : State := { s with ret := r }
      let s2 :=
        if 0 < o.kill_parent ∧ o.kill_parent < NSIG then emit (.kill_ppid o.kill_parent) s1
        else s1
      (s2, s2.ret)
    match o.mode with
    | .about => special ext
    | .version => special 0
    | .notification => if pf.have_tray then special ext else main_after_loop K o s
    | .print => special ext
    | _ => main_after_loop K o s

/-- The run of `main` reaches the code after the switch: the dialog is
standalone (`plug = -1`, or plug mode is dropped because the backend is not
X11), and the mode is not one that `main` refuses outside X11. -/
def reaches_exit (pf : Platform) (o : YadOptions) : Prop :=
  (o.plug = -1 ∨ pf.is_x11 = false) ∧
  ¬ (pf.is_x11 = false ∧
      (o.mode = .notebook ∨ o.mode = .paned ∨ (pf.have_tray = true ∧ o.mode = .notification)))

instance (pf : Platform) (o : YadOptions) : Decidable (reaches_exit pf o) := by
  unfold reaches_exit
  infer_instance

/-- An X11 build with tray support, for concrete evaluations. -/
def x11Platform : Platform := { is_x11 := true, have_tray := true }

/-- The signals sent to the parent process so far, in order. -/
def kills (s : State) : List Int :=
  s.log.filterMap fun e =>
    match e with
    | .kill_ppid sig => some sig
    | _ => none

/-- A button event is a click on a button of the bar `bar`; other events are
not restricted. -/
def from_bar (bar : List GtkButton) (e : Event) : Prop :=
  match e with
  | .button resp cmd _ => ∃ w ∈ bar, w.resp = resp ∧ w.cmd = cmd
  | _ => True

/-- A toolkit for concrete evaluations: every mode widget is built, no HTML
support, OK before Cancel. -/
def sampleToolkit : Toolkit :=
  { have_html := false, alternative_order := true, widget_built := fun _ => true }

/-- The sample dialog with always_print set. -/
def alwaysPrintOptions : YadOptions :=
  { sampleOptions with data := { sampleOptions.data with always_print := true } }

/-- The sample dialog with default response 5. -/
def optionsDefResp5 : YadOptions :=
  { sampleOptions with data := { sampleOptions.data with def_resp := 5 } }

/-- A Progress dialog without custom buttons, with auto-kill. -/
def progressOptions : YadOptions := { sampleOptions with mode := .progress, autokill := true }

/-- The Progress dialog with auto-kill, run as a plug (`plug = 0`). -/
def progressPlug : YadOptions := { progressOptions with plug := 0 }

/-- The Progress dialog with kill-parent signal 15. -/
def progressKill15 : YadOptions := { progressOptions with kill_parent := 15 }

/-- The sample dialog with a 5 second timeout and the indicator placement
"middle". -/
def middleIndicatorOptions : YadOptions :=
  { sampleOptions with
    data := { sampleOptions.data with timeout := 5, to_indicator := some "middle" } }

/-- The sample dialog with text, image and expander caption. -/
def richOptions : YadOptions :=
  { sampleOptions with
    data := { sampleOptions.data with
              dialog_image := some "img.png", dialog_text := some "Name", expander := some "More" } }

/-- The sample dialog placed at the explicit position (-10, 20). -/
def placedOptions : YadOptions :=
  { sampleOptions with
    data := { sampleOptions.data with use_posx := true, use_posy := true, posx := -10, posy := 20 } }

/-- A 1920x1080 screen showing a 400x300 window at (100, 100). -/
def sampleWindowSystem : WindowSystem :=
  { cw := 400, ch := 300, ww := 400, wh := 300, sw := 1920, sh := 1080, cur_x := 100, cur_y := 100 }

/-- The values `ret` can hold when the loop ends, given the button bar `bar`:
the two sentinels, the default response, the Cancel code, and the codes of the
buttons of the bar. -/
def terminal_value (K : YadResponse) (o : YadOptions) (bar : List GtkButton) (r : Int) : Prop :=
  r = K.esc ∨ r = K.timeout ∨ r = o.data.def_resp ∨ r = K.cancel ∨ ∃ w ∈ bar, w.resp = r

/-- The modes for which `yad_print_result` has a result producer. -/
def producer_modes : List YadMode :=
  [.calendar, .color, .entry, .file, .font, .form, .list, .notebook, .paned, .scale, .textinfo]

/-- The rule of the Result Emission Gate in the words of the specification
(section 4.4), for comparison with `print_results`: the result code is neither
sentinel, and always-print is set, or the code is OK with no custom buttons, or
the code is even. -/
def gate_open (K : YadResponse) (o : YadOptions) (r : Int) : Prop :=
  r ≠ K.esc ∧ r ≠ K.timeout ∧
    (o.data.always_print = true ∨ (r = K.ok ∧ o.data.buttons = []) ∨ Even r)

instance (K : YadResponse) (o : YadOptions) (r : Int) : Decidable (gate_open K o r) := by
  unfold gate_open
  infer_instance

/-! ## Helper lemmas -/

theorem ldiff_one (m : Nat) : Nat.ldiff 1 m = if m % 2 = 0 then 1 else 0 := by
  apply Nat.eq_of_testBit_eq
  intro i
  rw [Nat.testBit_ldiff]
  split
  · cases i with
    | zero => simp [Nat.testBit_zero]; omega
    | succ j => simp [Nat.testBit_succ]
  · cases i with
    | zero => simp [Nat.testBit_zero]; omega
    | succ j => simp [Nat.testBit_succ]

/-- The lowest bit as computed by `land1` is the bitwise conjunction with 1 on
two's complement integers. -/
theorem land1_eq_land (x : Int) : land1 x = Int.land x 1 := by
  unfold land1
  cases x with
  | ofNat m =>
    show _ = Int.land (Int.ofNat m) (Int.ofNat 1)
    simp only [Int.land]
    simp [Nat.and_one_is_mod]
  | negSucc m =>
    show _ = Int.land (Int.negSucc m) (Int.ofNat 1)
    simp only [Int.land]
    rw [ldiff_one, Int.negSucc_eq]
    split <;> omega

theorem land1_eq_zero_iff (x : Int) : land1 x = 0 ↔ 2 ∣ x := by
  unfold land1
  omega

theorem land1_eq_one_iff (x : Int) : land1 x = 1 ↔ ¬ 2 ∣ x := by
  unfold land1
  omega

theorem log_emit (e : Effect) (s : State) : (emit e s).log = s.log ++ [e] := rfl

theorem ret_emit (e : Effect) (s : State) : (emit e s).ret = s.ret := rfl

theorem count_emit (e : Effect) (s : State) : (emit e s).count = s.count := rfl

theorem occurrences_emit (e e' : Effect) (s : State) :
    occurrences e (emit e' s) = occurrences e s + if e' = e then 1 else 0 := by
  unfold occurrences emit
  by_cases h : e' = e
  · subst h
    simp
  · have hb : (e' == e) = false := by simpa using h
    simp [List.count_append, List.count_cons, hb, h]

theorem ret_yad_print_result (o : YadOptions) (s : State) : (yad_print_result o s).ret = s.ret := by
  unfold yad_print_result
  cases o.mode <;> rfl

theorem count_yad_print_result (o : YadOptions) (s : State) :
    (yad_print_result o s).count = s.count := by
  unfold yad_print_result
  cases o.mode <;> rfl

theorem calls_yad_print_result (o : YadOptions) (s : State) :
    occurrences .print_result_call (yad_print_result o s)
      = occurrences .print_result_call s + 1 := by
  unfold yad_print_result
  cases o.mode <;> simp [occurrences_emit]

theorem quits_yad_print_result (o : YadOptions) (s : State) :
    occurrences .main_quit (yad_print_result o s) = occurrences .main_quit s := by
  unfold yad_print_result
  cases o.mode <;> simp [occurrences_emit]

theorem ret_print_results (K : YadResponse) (o : YadOptions) (s : State) :
    (print_results K o s).ret = s.ret := by
  unfold print_results
  split_ifs <;> simp [ret_yad_print_result]

theorem calls_print_results (K : YadResponse) (o : YadOptions) (s : State) :
    occurrences .print_result_call (print_results K o s)
      = occurrences .print_result_call s + if gate_open K o s.ret then 1 else 0 := by
  have hev : land1 s.ret = 0 ↔ Even s.ret := by
    rw [land1_eq_zero_iff, even_iff_two_dvd]
  unfold print_results
  simp only [hev, List.isEmpty_iff]
  by_cases hg : gate_open K o s.ret
  · rw [if_pos hg]
    obtain ⟨h1, h2, h3⟩ := hg
    rw [if_pos ⟨h2, h1⟩]
    split_ifs with ha hb hc
    · exact calls_yad_print_result o s
    · exact calls_yad_print_result o s
    · exact calls_yad_print_result o s
    · exact absurd h3 (by tauto)
  · rw [if_neg hg]
    unfold gate_open at hg
    split_ifs with h0 ha hb hc
    · exact absurd ⟨h0.2, h0.1, Or.inl ha⟩ hg
    · exact absurd ⟨h0.2, h0.1, Or.inr (Or.inl hb)⟩ hg
    · exact absurd ⟨h0.2, h0.1, Or.inr (Or.inr hc)⟩ hg
    · rfl
    · rfl

theorem calls_main_after_loop (K : YadResponse) (o : YadOptions) (s : State) :
    occurrences .print_result_call (main_after_loop K o s).1
      = occurrences .print_result_call (print_results K o s) := by
  unfold main_after_loop
  simp only
  split_ifs <;> simp [occurrences_emit]

theorem ret_main_after_loop (K : YadResponse) (o : YadOptions) (s : State) :
    (main_after_loop K o s).2 = s.ret := by
  unfold main_after_loop
  simp only
  split_ifs <;> simp [ret_emit, ret_print_results]

theorem occurrences_with_ret (e : Effect) (s : State) (r : Int) :
    occurrences e { s with ret := r } = occurrences e s := rfl

theorem land1_even (x : Int) : land1 x = 0 ↔ Even x := by
  rw [land1_eq_zero_iff, even_iff_two_dvd]

/-- What `yad_exit` does when the File-mode veto rejects the call. -/
theorem yad_exit_vetoed (o : YadOptions) (ow : Bool) (id : Int) (s : State)
    (h : o.mode = .file ∧ Even id ∧ ow = false) :
    yad_exit o ow id s = emit .confirm_overwrite s := by
  obtain ⟨hm, he, hw⟩ := h
  unfold yad_exit file_confirm_overwrite
  rw [if_pos ⟨hm, (land1_even id).2 he⟩]
  simp [hw]

/-- What `yad_exit` does when the confirmation is shown and accepted. -/
theorem yad_exit_confirmed (o : YadOptions) (ow : Bool) (id : Int) (s : State)
    (h : o.mode = .file ∧ Even id) (hw : ow = true) :
    yad_exit o ow id s = emit .main_quit { emit .confirm_overwrite s with ret := id } := by
  unfold yad_exit file_confirm_overwrite gtk_main_quit
  rw [if_pos ⟨h.1, (land1_even id).2 h.2⟩]
  simp [hw]

/-- What `yad_exit` does when the confirmation is not needed. -/
theorem yad_exit_direct (o : YadOptions) (ow : Bool) (id : Int) (s : State)
    (h : ¬ (o.mode = .file ∧ Even id)) :
    yad_exit o ow id s = emit .main_quit { s with ret := id } := by
  unfold yad_exit gtk_main_quit
  rw [if_neg]
  rw [land1_even]
  exact h

theorem ret_yad_exit (o : YadOptions) (ow : Bool) (id : Int) (s : State) :
    (yad_exit o ow id s).ret = if o.mode = .file ∧ Even id ∧ ow = false then s.ret else id := by
  by_cases h : o.mode = .file ∧ Even id
  · cases ow with
    | false =>
      rw [yad_exit_vetoed o false id s ⟨h.1, h.2, rfl⟩, if_pos ⟨h.1, h.2, rfl⟩]
      rfl
    | true =>
      rw [yad_exit_confirmed o true id s h rfl, if_neg (by simp)]
      rfl
  · rw [yad_exit_direct o ow id s h, if_neg (fun hh => h ⟨hh.1, hh.2.1⟩)]
    rfl

theorem quits_yad_exit (o : YadOptions) (ow : Bool) (id : Int) (s : State) :
    occurrences .main_quit (yad_exit o ow id s)
      = occurrences .main_quit s + if o.mode = .file ∧ Even id ∧ ow = false then 0 else 1 := by
  by_cases h : o.mode = .file ∧ Even id
  · cases ow with
    | false =>
      rw [yad_exit_vetoed o false id s ⟨h.1, h.2, rfl⟩, if_pos ⟨h.1, h.2, rfl⟩]
      simp [occurrences_emit]
    | true =>
      rw [yad_exit_confirmed o true id s h rfl, if_neg (by simp)]
      rw [occurrences_emit, occurrences_with_ret, occurrences_emit]
      simp
  · rw [yad_exit_direct o ow id s h, if_neg (fun hh => h ⟨hh.1, hh.2.1⟩)]
    rw [occurrences_emit]
    simp [occurrences]

theorem confirms_yad_exit (o : YadOptions) (ow : Bool) (id : Int) (s : State) :
    occurrences .confirm_overwrite (yad_exit o ow id s)
      = occurrences .confirm_overwrite s + if o.mode = .file ∧ Even id then 1 else 0 := by
  by_cases h : o.mode = .file ∧ Even id
  · cases ow with
    | false =>
      rw [yad_exit_vetoed o false id s ⟨h.1, h.2, rfl⟩, if_pos h]
      simp [occurrences_emit]
    | true =>
      rw [yad_exit_confirmed o true id s h rfl, if_pos h]
      rw [occurrences_emit, occurrences_with_ret, occurrences_emit]
      simp
  · rw [yad_exit_direct o ow id s h, if_neg h]
    rw [occurrences_emit]
    simp [occurrences]

theorem calls_yad_exit (o : YadOptions) (ow : Bool) (id : Int) (s : State) :
    occurrences .print_result_call (yad_exit o ow id s) = occurrences .print_result_call s := by
  by_cases h : o.mode = .file ∧ Even id
  · cases ow with
    | false =>
      rw [yad_exit_vetoed o false id s ⟨h.1, h.2, rfl⟩]
      simp [occurrences_emit]
    | true =>
      rw [yad_exit_confirmed o true id s h rfl]
      rw [occurrences_emit, occurrences_with_ret, occurrences_emit]
      simp
  · rw [yad_exit_direct o ow id s h]
    rw [occurrences_emit]
    simp [occurrences]

theorem count_yad_exit (o : YadOptions) (ow : Bool) (id : Int) (s : State) :
    (yad_exit o ow id s).count = s.count := by
  unfold yad_exit file_confirm_overwrite gtk_main_quit
  cases ow <;> simp only [] <;> split_ifs <;> rfl

/-- Number of `yad_print_result` invocations added by the post-loop part of
`main`. -/
theorem calls_after_loop (K : YadResponse) (o : YadOptions) (s : State) :
    occurrences .print_result_call (main_after_loop K o s).1
      = occurrences .print_result_call s + if gate_open K o s.ret then 1 else 0 := by
  rw [calls_main_after_loop, calls_print_results]

theorem ret_unfocus_cb (o : YadOptions) (s : State) : (unfocus_cb o s).1.ret = s.ret := by
  unfold unfocus_cb gtk_main_quit
  simp only
  split_ifs <;> rfl

theorem calls_unfocus_cb (o : YadOptions) (s : State) :
    occurrences .print_result_call (unfocus_cb o s).1 = occurrences .print_result_call s := by
  unfold unfocus_cb gtk_main_quit
  simp only
  split_ifs
  · simp [occurrences_emit]
  · rfl

theorem quits_unfocus_cb (o : YadOptions) (s : State) :
    occurrences .main_quit (unfocus_cb o s).1
      = occurrences .main_quit s + if o.data.close_on_unfocus = true then 1 else 0 := by
  unfold unfocus_cb gtk_main_quit
  simp only
  split_ifs
  · simp [occurrences_emit]
  · rfl

theorem run_cons (K : YadResponse) (o : YadOptions) (st : YadSettings) (e : Event)
    (es : List Event) (s : State) :
    run K o st (e :: es) s = run K o st es (dispatch K o st e s) := rfl

/-- Close and unfocus events change neither `ret` nor the number of
`yad_print_result` invocations. -/
theorem run_close_unfocus (K : YadResponse) (o : YadOptions) (st : YadSettings)
    (es : List Event) : ∀ s : State, (∀ e ∈ es, is_close_or_unfocus e) →
      (run K o st es s).ret = s.ret ∧
      occurrences .print_result_call (run K o st es s) = occurrences .print_result_call s := by
  induction es with
  | nil =>
    intro s _
    exact ⟨rfl, rfl⟩
  | cons e es ih =>
    intro s h
    rw [run_cons]
    have he := h e (List.mem_cons_self e es)
    have ht := ih (dispatch K o st e s) (fun x hx => h x (List.mem_cons_of_mem e hx))
    rcases he with he | he
    · subst he
      refine ⟨ht.1.trans rfl, ht.2.trans ?_⟩
      show occurrences .print_result_call (emit .main_quit s) = _
      simp [occurrences_emit]
    · subst he
      exact ⟨ht.1.trans (ret_unfocus_cb o s), ht.2.trans (calls_unfocus_cb o s)⟩

/-- One invocation of `timeout_cb` while the counter does not exceed the
budget. -/
theorem timeout_cb_within (K : YadResponse) (o : YadOptions) (st : YadSettings) (ow w : Bool)
    (s : State) (h : s.count ≤ o.data.timeout) :
    timeout_cb K o st ow w s
      = ({ ret := s.ret, count := (s.count + 1) % G_UINT_RANGE,
           log := s.log ++ tick_effects o st w s.count }, true) := by
  unfold timeout_cb tick_effects emit
  rw [if_neg (Nat.not_lt.mpr h)]
  cases w <;> cases hsr : st.show_remain <;> simp

theorem count_tick_effects (e : Effect) (o : YadOptions) (st : YadSettings) (w : Bool) (c : Nat)
    (h1 : ∀ q, e ≠ .set_fraction q) (h2 : ∀ n, e ≠ .set_text n) :
    (tick_effects o st w c).count e = 0 := by
  unfold tick_effects
  rw [List.count_eq_zero]
  intro hm
  split_ifs at hm with hw hr
  · simp only [List.mem_cons, List.mem_singleton, List.not_mem_nil, or_false] at hm
    rcases hm with hm | hm
    · exact h1 _ hm
    · exact h2 _ hm
  · simp only [List.mem_cons, List.mem_singleton, List.not_mem_nil, or_false] at hm
    exact h1 _ hm
  · exact List.not_mem_nil _ hm

/-- The state during the first ticks: the counter has advanced by one per tick,
`ret` is untouched, and neither `gtk_main_quit` nor `yad_print_result` has been
called. -/
theorem ticks_within (K : YadResponse) (o : YadOptions) (st : YadSettings) (ow w : Bool)
    (s : State) (hs : s.count = 1) (hB : o.data.timeout + 1 < G_UINT_RANGE) :
    ∀ k, k ≤ o.data.timeout →
      (ticks K o st ow w k s).count = k + 1 ∧ (ticks K o st ow w k s).ret = s.ret ∧
      occurrences .main_quit (ticks K o st ow w k s) = occurrences .main_quit s ∧
      occurrences .print_result_call (ticks K o st ow w k s)
        = occurrences .print_result_call s := by
  intro k
  induction k with
  | zero =>
    intro _
    exact ⟨hs, rfl, rfl, rfl⟩
  | succ k ih =>
    intro hk
    obtain ⟨hc, hr, hq, hp⟩ := ih (Nat.le_of_succ_le hk)
    have hle : (ticks K o st ow w k s).count ≤ o.data.timeout := by
      rw [hc]
      exact hk
    show (timeout_cb K o st ow w (ticks K o st ow w k s)).1.count = _ ∧
      (timeout_cb K o st ow w (ticks K o st ow w k s)).1.ret = _ ∧
      occurrences .main_quit (timeout_cb K o st ow w (ticks K o st ow w k s)).1 = _ ∧
      occurrences .print_result_call (timeout_cb K o st ow w (ticks K o st ow w k s)).1 = _
    rw [timeout_cb_within K o st ow w _ hle]
    refine ⟨?_, hr, ?_, ?_⟩
    · show ((ticks K o st ow w k s).count + 1) % G_UINT_RANGE = k + 1 + 1
      rw [hc]
      apply Nat.mod_eq_of_lt
      omega
    · show List.count _ (_ ++ _) = _
      rw [List.count_append, count_tick_effects _ _ _ _ _ (by simp) (by simp)]
      exact hq
    · show List.count _ (_ ++ _) = _
      rw [List.count_append, count_tick_effects _ _ _ _ _ (by simp) (by simp)]
      exact hp

/-! ## The Result Emission Gate -/

/-- C1: after the main loop, `main` invokes `yad_print_result` if and only if
`ret` is neither the Escape nor the Timeout sentinel and (always_print is set,
or `ret` is OK and no custom button list is configured, or `ret` is even); when
it invokes it, it does so exactly once. Stated as the number of invocations
that the post-loop part of `main` adds: 1 under that condition, 0 otherwise. -/
theorem main_print_gate (K : YadResponse) (o : YadOptions) (s : State) :
    occurrences .print_result_call (main_after_loop K o s).1
      = occurrences .print_result_call s +
        if s.ret ≠ K.esc ∧ s.ret ≠ K.timeout ∧
            (o.data.always_print = true ∨ (s.ret = K.ok ∧ o.data.buttons = []) ∨ Even s.ret)
        then 1 else 0 :=
  calls_after_loop K o s

/-- C2 fails as stated: with no custom buttons and always_print off, a dialog
with default response 2 that is ended by Control+Return has result code 2,
which is not the OK sentinel, and `main` invokes `yad_print_result` once. -/
theorem no_buttons_even_code_prints :
    optionsDefResp2.data.buttons = [] ∧ optionsDefResp2.data.always_print = false ∧
    (run specResponse optionsDefResp2 ⟨false⟩ [.key ctrlReturn true] (init specResponse)).ret = 2 ∧
    (2 : Int) ≠ specResponse.ok ∧
    occurrences .print_result_call
      (main_after_loop specResponse optionsDefResp2
        (run specResponse optionsDefResp2 ⟨false⟩ [.key ctrlReturn true] (init specResponse))).1
      = 1 := by
  decide

/-- C2 as amended: with no custom buttons configured (and OK different from the
two sentinels), result code OK makes `main` invoke `yad_print_result` exactly
once; any other result code makes it invoke it once if the code is neither
sentinel and (always_print is set or the code is even), and not at all
otherwise - so Escape, Timeout, and odd codes without always_print never
print. -/
theorem no_buttons_gate (K : YadResponse) (o : YadOptions) (s : State)
    (hb : o.data.buttons = []) (hK : K.ok ≠ K.esc ∧ K.ok ≠ K.timeout) :
    (s.ret = K.ok →
      occurrences .print_result_call (main_after_loop K o s).1
        = occurrences .print_result_call s + 1) ∧
    (s.ret ≠ K.ok →
      occurrences .print_result_call (main_after_loop K o s).1
        = occurrences .print_result_call s +
          if s.ret ≠ K.esc ∧ s.ret ≠ K.timeout ∧ (o.data.always_print = true ∨ Even s.ret)
          then 1 else 0) := by
  rw [calls_main_after_loop, calls_print_results]
  unfold gate_open
  constructor
  · intro h
    rw [if_pos]
    rw [h]
    exact ⟨hK.1, hK.2, Or.inr (Or.inl ⟨rfl, hb⟩)⟩
  · intro h
    congr 1
    apply if_congr _ rfl rfl
    constructor
    · rintro ⟨h1, h2, h3 | h3 | h3⟩
      · exact ⟨h1, h2, Or.inl h3⟩
      · exact absurd h3.1 h
      · exact ⟨h1, h2, Or.inr h3⟩
    · rintro ⟨h1, h2, h3 | h3⟩
      · exact ⟨h1, h2, Or.inl h3⟩
      · exact ⟨h1, h2, Or.inr (Or.inr h3)⟩

/-- Witness of `no_buttons_gate`: the sample dialog at program start. -/
theorem no_buttons_gate_witness :
    (sampleOptions.data.buttons = [] ∧
      (specResponse.ok ≠ specResponse.esc ∧ specResponse.ok ≠ specResponse.timeout)) ∧
    ((init specResponse).ret = specResponse.ok →
      occurrences .print_result_call (main_after_loop specResponse sampleOptions (init specResponse)).1
        = occurrences .print_result_call (init specResponse) + 1) ∧
    ((init specResponse).ret ≠ specResponse.ok →
      occurrences .print_result_call (main_after_loop specResponse sampleOptions (init specResponse)).1
        = occurrences .print_result_call (init specResponse) +
          if (init specResponse).ret ≠ specResponse.esc ∧ (init specResponse).ret ≠ specResponse.timeout ∧
              (sampleOptions.data.always_print = true ∨ Even (init specResponse).ret)
          then 1 else 0) :=
  ⟨⟨rfl, by decide⟩,
    no_buttons_gate specResponse sampleOptions (init specResponse) rfl (by decide)⟩

/-- C3 fails as stated: in a File dialog, activating a custom button with the
even code 2 and no command, when the overwrite confirmation is declined, does
not end the dialog: `ret` keeps its initial value and `gtk_main_quit` is not
called. -/
theorem even_button_vetoed :
    saveButton ∈ fileOptions.data.buttons ∧ saveButton.cmd = none ∧ Even saveButton.response ∧
    (btn_cb fileOptions false saveButton.response saveButton.cmd (init specResponse)).ret
      ≠ saveButton.response ∧
    occurrences .main_quit
      (btn_cb fileOptions false saveButton.response saveButton.cmd (init specResponse)) = 0 := by
  refine ⟨by decide, rfl, ⟨1, rfl⟩, by decide, by decide⟩

/-- C3 as amended: for a button of the custom button list without a command,
unless the File-mode overwrite confirmation is declined, activation sets `ret`
to the button's code and asks the loop to end; afterwards `main` invokes
`yad_print_result` once if the code is even and is neither sentinel, and, if
the code is odd, does not invoke it when always_print is off. -/
theorem button_activation_gate (K : YadResponse) (o : YadOptions) (ow : Bool) (s : State)
    (b : YadButton) (hb : b ∈ o.data.buttons) (hc : b.cmd = none)
    (hv : ¬ (o.mode = .file ∧ Even b.response ∧ ow = false)) :
    (btn_cb o ow b.response b.cmd s).ret = b.response ∧
    occurrences .main_quit (btn_cb o ow b.response b.cmd s) = occurrences .main_quit s + 1 ∧
    (Even b.response → b.response ≠ K.esc → b.response ≠ K.timeout →
      occurrences .print_result_call (main_after_loop K o (btn_cb o ow b.response b.cmd s)).1
        = occurrences .print_result_call s + 1) ∧
    (¬ Even b.response → o.data.always_print = false →
      occurrences .print_result_call (main_after_loop K o (btn_cb o ow b.response b.cmd s)).1
        = occurrences .print_result_call s) := by
  have hbtn : btn_cb o ow b.response b.cmd s = yad_exit o ow b.response s := by
    rw [hc]
    rfl
  have hret : (yad_exit o ow b.response s).ret = b.response := by
    rw [ret_yad_exit, if_neg hv]
  rw [hbtn]
  refine ⟨hret, ?_, ?_, ?_⟩
  · rw [quits_yad_exit, if_neg hv]
  · intro he h1 h2
    rw [calls_after_loop, calls_yad_exit, hret, if_pos ⟨h1, h2, Or.inr (Or.inr he)⟩]
  · intro he ha
    rw [calls_after_loop, calls_yad_exit, hret, if_neg]
    · rfl
    · rintro ⟨-, -, h3 | h3 | h3⟩
      · rw [ha] at h3
        exact Bool.noConfusion h3
      · obtain ⟨-, h4⟩ := h3
        rw [h4] at hb
        exact List.not_mem_nil _ hb
      · exact he h3

/-- Witness of `button_activation_gate`: the `Save` button of `fileOptions`,
with the overwrite confirmation accepted. -/
theorem button_activation_gate_witness :
    (btn_cb fileOptions true saveButton.response saveButton.cmd (init specResponse)).ret
      = saveButton.response ∧
    occurrences .main_quit
      (btn_cb fileOptions true saveButton.response saveButton.cmd (init specResponse))
      = occurrences .main_quit (init specResponse) + 1 ∧
    (Even saveButton.response → saveButton.response ≠ specResponse.esc →
      saveButton.response ≠ specResponse.timeout →
      occurrences .print_result_call
        (main_after_loop specResponse fileOptions
          (btn_cb fileOptions true saveButton.response saveButton.cmd (init specResponse))).1
        = occurrences .print_result_call (init specResponse) + 1) ∧
    (¬ Even saveButton.response → fileOptions.data.always_print = false →
      occurrences .print_result_call
        (main_after_loop specResponse fileOptions
          (btn_cb fileOptions true saveButton.response saveButton.cmd (init specResponse))).1
        = occurrences .print_result_call (init specResponse)) :=
  button_activation_gate specResponse fileOptions true (init specResponse) saveButton
    (by decide) rfl (by decide)

/-! ## The Termination Arbiter -/

/-- C4 fails as stated: in the sample dialog, a click on a button with code 0
is accepted and `ret` holds 0; a SIGUSR2 handled afterwards overwrites `ret`
with the Cancel code 1. -/
theorem later_exit_overwrites_ret :
    (run specResponse sampleOptions ⟨false⟩ [.button 0 none true] (init specResponse)).ret = 0 ∧
    occurrences .main_quit
      (run specResponse sampleOptions ⟨false⟩ [.button 0 none true] (init specResponse)) = 1 ∧
    (run specResponse sampleOptions ⟨false⟩ [.button 0 none true, .usr2 true]
      (init specResponse)).ret = 1 := by
  decide

/-- C4 as amended: `ret` is not a latch, the last accepted `yad_exit` wins. In
every state, a close event and an unfocus event leave `ret` as it is, and so
does a `yad_exit` call that the File-mode veto rejects; every other
`yad_exit (id)` call sets `ret` to `id`, whatever `ret` held before. -/
theorem last_accepted_exit_wins (K : YadResponse) (o : YadOptions) (st : YadSettings)
    (s : State) :
    (dispatch K o st .delete s).ret = s.ret ∧
    (dispatch K o st .unfocus s).ret = s.ret ∧
    ∀ (ow : Bool) (id : Int),
      (yad_exit o ow id s).ret
        = if o.mode = .file ∧ Even id ∧ ow = false then s.ret else id := by
  refine ⟨rfl, ?_, fun ow id => ret_yad_exit o ow id s⟩
  unfold dispatch unfocus_cb gtk_main_quit
  simp only
  split_ifs <;> rfl

/-- C5: `yad_exit (id)` consults the overwrite confirmation exactly when the
mode is File and `id` is even (once), and never otherwise; a declined
confirmation leaves `ret` unchanged and does not ask the loop to end; in every
other case `ret` becomes `id` and `gtk_main_quit` is called once. -/
theorem yad_exit_file_veto (o : YadOptions) (ow : Bool) (id : Int) (s : State) :
    occurrences .confirm_overwrite (yad_exit o ow id s)
      = occurrences .confirm_overwrite s + (if o.mode = .file ∧ Even id then 1 else 0) ∧
    (yad_exit o ow id s).ret
      = (if o.mode = .file ∧ Even id ∧ ow = false then s.ret else id) ∧
    occurrences .main_quit (yad_exit o ow id s)
      = occurrences .main_quit s + (if o.mode = .file ∧ Even id ∧ ow = false then 0 else 1) :=
  ⟨confirms_yad_exit o ow id s, ret_yad_exit o ow id s, quits_yad_exit o ow id s⟩

/-- C6: the window's delete-event asks the loop to end and leaves `ret`
unchanged; `unfocus_cb` asks the loop to end exactly when close_on_unfocus is
set and leaves `ret` unchanged in every case; and after any sequence of close
and unfocus events from program start, `ret` is still the Escape sentinel,
`main` returns it, and `yad_print_result` is not invoked, whatever always_print
is. -/
theorem close_and_unfocus_keep_ret (K : YadResponse) (o : YadOptions) (st : YadSettings)
    (s : State) :
    ((dispatch K o st .delete s).ret = s.ret ∧
      occurrences .main_quit (dispatch K o st .delete s) = occurrences .main_quit s + 1) ∧
    ((unfocus_cb o s).1.ret = s.ret ∧
      occurrences .main_quit (unfocus_cb o s).1
        = occurrences .main_quit s + (if o.data.close_on_unfocus = true then 1 else 0)) ∧
    ∀ es : List Event, (∀ e ∈ es, is_close_or_unfocus e) →
      (run K o st es (init K)).ret = K.esc ∧
      (main_after_loop K o (run K o st es (init K))).2 = K.esc ∧
      occurrences .print_result_call (main_after_loop K o (run K o st es (init K))).1 = 0 := by
  refine ⟨⟨rfl, ?_⟩, ⟨ret_unfocus_cb o s, quits_unfocus_cb o s⟩, ?_⟩
  · show occurrences .main_quit (emit .main_quit s) = _
    simp [occurrences_emit]
  · intro es hes
    obtain ⟨hr, hp⟩ := run_close_unfocus K o st es (init K) hes
    have hesc : (run K o st es (init K)).ret = K.esc := hr
    refine ⟨hesc, ?_, ?_⟩
    · rw [ret_main_after_loop, hesc]
    · rw [calls_after_loop, hp, hesc, if_neg]
      · rfl
      · intro hg
        exact hg.1 rfl

/-! ## The Countdown/Timeout Driver -/

/-- C7: for a budget `B` (any value with `B + 1` in the range of the `guint`
counter, so every `B >= 1` of a 32-bit signed budget) and ticks only, each of the first `B` invocations of `timeout_cb`
returns TRUE, leaves `ret` unchanged and does not ask the loop to end; the
`(B+1)`-th invocation - unless it is rejected by the File-mode veto, which can
only happen when the Timeout sentinel is even - returns FALSE, sets `ret` to
the Timeout sentinel and calls `gtk_main_quit` once; `main` then does not
invoke `yad_print_result`, whatever always_print is. -/
theorem timeout_expiry (K : YadResponse) (o : YadOptions) (st : YadSettings) (ow w : Bool)
    (s : State) (hB : o.data.timeout + 1 < G_UINT_RANGE)
    (hs : s.count = 1) (hv : ¬ (o.mode = .file ∧ Even K.timeout ∧ ow = false)) :
    (∀ k, k < o.data.timeout →
      (timeout_cb K o st ow w (ticks K o st ow w k s)).2 = true ∧
      (timeout_cb K o st ow w (ticks K o st ow w k s)).1.ret = s.ret ∧
      occurrences .main_quit (timeout_cb K o st ow w (ticks K o st ow w k s)).1
        = occurrences .main_quit s) ∧
    (timeout_cb K o st ow w (ticks K o st ow w o.data.timeout s)).2 = false ∧
    (timeout_cb K o st ow w (ticks K o st ow w o.data.timeout s)).1.ret = K.timeout ∧
    occurrences .main_quit (timeout_cb K o st ow w (ticks K o st ow w o.data.timeout s)).1
      = occurrences .main_quit s + 1 ∧
    occurrences .print_result_call
      (main_after_loop K o (timeout_cb K o st ow w (ticks K o st ow w o.data.timeout s)).1).1
      = occurrences .print_result_call s := by
  have hw := ticks_within K o st ow w s hs hB
  refine ⟨?_, ?_⟩
  · intro k hk
    obtain ⟨-, hr, hq, -⟩ := hw (k + 1) hk
    obtain ⟨hc, -, -, -⟩ := hw k (Nat.le_of_lt hk)
    refine ⟨?_, hr, hq⟩
    rw [timeout_cb_within K o st ow w _ (by rw [hc]; exact hk)]
  · obtain ⟨hc, hr, hq, hp⟩ := hw o.data.timeout (Nat.le_refl _)
    have hstep : timeout_cb K o st ow w (ticks K o st ow w o.data.timeout s)
        = (yad_exit o ow K.timeout (ticks K o st ow w o.data.timeout s), false) := by
      unfold timeout_cb
      rw [if_pos (by rw [hc]; exact Nat.lt_succ_self _)]
    rw [hstep]
    have hret : (yad_exit o ow K.timeout (ticks K o st ow w o.data.timeout s)).ret = K.timeout := by
      rw [ret_yad_exit, if_neg hv]
    refine ⟨rfl, hret, ?_, ?_⟩
    · rw [quits_yad_exit, if_neg hv, hq]
    · rw [calls_after_loop, calls_yad_exit, hp, hret, if_neg]
      · rfl
      · intro hg
        exact hg.2.1 rfl

/-- Witness of `timeout_expiry`: budget 3 with always_print set; the first three
ticks keep the timer running, the fourth sets `ret` to the Timeout sentinel, and
nothing is printed. -/
theorem timeout_expiry_witness :
    (∀ k, k < 3 →
      (timeout_cb specResponse timeout3Options ⟨true⟩ false true
        (ticks specResponse timeout3Options ⟨true⟩ false true k (init specResponse))).2 = true ∧
      (timeout_cb specResponse timeout3Options ⟨true⟩ false true
        (ticks specResponse timeout3Options ⟨true⟩ false true k (init specResponse))).1.ret
        = (init specResponse).ret ∧
      occurrences .main_quit (timeout_cb specResponse timeout3Options ⟨true⟩ false true
        (ticks specResponse timeout3Options ⟨true⟩ false true k (init specResponse))).1
        = occurrences .main_quit (init specResponse)) ∧
    (timeout_cb specResponse timeout3Options ⟨true⟩ false true
      (ticks specResponse timeout3Options ⟨true⟩ false true 3 (init specResponse))).2 = false ∧
    (timeout_cb specResponse timeout3Options ⟨true⟩ false true
      (ticks specResponse timeout3Options ⟨true⟩ false true 3 (init specResponse))).1.ret
      = specResponse.timeout ∧
    occurrences .main_quit (timeout_cb specResponse timeout3Options ⟨true⟩ false true
      (ticks specResponse timeout3Options ⟨true⟩ false true 3 (init specResponse))).1
      = occurrences .main_quit (init specResponse) + 1 ∧
    occurrences .print_result_call
      (main_after_loop specResponse timeout3Options
        (timeout_cb specResponse timeout3Options ⟨true⟩ false true
          (ticks specResponse timeout3Options ⟨true⟩ false true 3 (init specResponse))).1).1
      = occurrences .print_result_call (init specResponse) :=
  timeout_expiry specResponse timeout3Options ⟨true⟩ false true (init specResponse)
    (by decide) rfl (by decide)

/-- Rounding to the nearest integer moves a value by at most one half. -/
theorem round_half_even_err (y : ℚ) : |(round_half_even y : ℚ) - y| ≤ 1 / 2 := by
  have h1 : (⌊y⌋ : ℚ) ≤ y := Int.floor_le y
  have h2 : y < ⌊y⌋ + 1 := Int.lt_floor_add_one y
  unfold round_half_even
  rw [abs_le]
  split_ifs with ha hb hc
  · constructor <;> linarith
  · push_cast
    constructor <;> linarith
  · constructor <;> linarith
  · push_cast
    constructor <;> linarith

theorem round_gdouble_zero : round_gdouble 0 = 0 := by
  unfold round_gdouble
  rw [if_pos rfl]

/-- Rounding to a `gdouble` has relative error at most `2 ^ (-53)`. -/
theorem round_gdouble_err (x : ℚ) (hx : 0 ≤ x) : |round_gdouble x - x| ≤ x / 2 ^ 53 := by
  rcases eq_or_lt_of_le hx with h0 | hpos
  · rw [← h0, round_gdouble_zero]
    norm_num
  have hne : x ≠ 0 := ne_of_gt hpos
  have hu : (0 : ℚ) < 2 ^ (Int.log 2 x - 52) := zpow_pos (by norm_num) _
  have hlog : (2 : ℚ) ^ Int.log 2 x ≤ x := by
    have := Int.zpow_log_le_self (b := 2) (r := x) (by norm_num) hpos
    simpa using this
  unfold round_gdouble
  rw [if_neg hne, if_pos hpos]
  have herr := round_half_even_err (x / 2 ^ (Int.log 2 x - 52))
  have hsplit : (2 : ℚ) ^ (Int.log 2 x - 52) = 2 ^ Int.log 2 x / 2 ^ 52 := by
    rw [zpow_sub₀ (by norm_num)]
    norm_num
  have key : (round_half_even (x / 2 ^ (Int.log 2 x - 52)) : ℚ) * 2 ^ (Int.log 2 x - 52) - x
      = ((round_half_even (x / 2 ^ (Int.log 2 x - 52)) : ℚ) - x / 2 ^ (Int.log 2 x - 52))
          * 2 ^ (Int.log 2 x - 52) := by
    field_simp
  rw [key, abs_mul, abs_of_pos hu]
  calc |(round_half_even (x / 2 ^ (Int.log 2 x - 52)) : ℚ) - x / 2 ^ (Int.log 2 x - 52)|
        * 2 ^ (Int.log 2 x - 52)
      ≤ 1 / 2 * 2 ^ (Int.log 2 x - 52) := by
        exact mul_le_mul_of_nonneg_right herr (le_of_lt hu)
    _ = 2 ^ Int.log 2 x / 2 ^ 53 := by
        rw [hsplit]
        norm_num
        ring
    _ ≤ x / 2 ^ 53 := by
        exact div_le_div_of_nonneg_right hlog (by norm_num)

/-- The `gdouble` nearest to two thirds. -/
theorem round_gdouble_two_thirds :
    round_gdouble (2 / 3) = 6004799503160661 / 9007199254740992 := by
  have hlog : Int.log 2 (2 / 3 : ℚ) = -1 := by
    apply le_antisymm
    · have : Int.log 2 (2 / 3 : ℚ) < 0 := by
        rw [← Int.lt_zpow_iff_log_lt (by norm_num) (by norm_num)]
        norm_num
      omega
    · rw [← Int.zpow_le_iff_le_log (by norm_num) (by norm_num)]
      norm_num
  unfold round_gdouble
  rw [if_neg (by norm_num), if_pos (by norm_num), hlog]
  have hy : (2 / 3 : ℚ) / 2 ^ ((-1 : ℤ) - 52) = 18014398509481984 / 3 := by
    norm_num [zpow_neg]
  have hf : ⌊(18014398509481984 / 3 : ℚ)⌋ = 6004799503160661 := by
    rw [Int.floor_eq_iff]
    constructor <;> norm_num
  rw [hy]
  unfold round_half_even
  rw [hf]
  norm_num [zpow_neg]

/-- The exact quotient of the `k`-th tick, and how far it is from 1. -/
theorem tick_quotient_bounds (B k : Nat) (hk1 : 1 ≤ k) (hkB : k ≤ B) (hB : B < 2 ^ 31) :
    0 ≤ ((B : ℚ) - (k : ℚ)) / (B : ℚ) ∧
    ((B : ℚ) - (k : ℚ)) / (B : ℚ) ≤ 1 - (k : ℚ) / 2147483648 := by
  have hBpos : (0 : ℚ) < (B : ℚ) := by
    have : 0 < B := by omega
    exact_mod_cast this
  have hkq : (k : ℚ) ≤ (B : ℚ) := by exact_mod_cast hkB
  have hk0 : (0 : ℚ) ≤ (k : ℚ) := Nat.cast_nonneg k
  have hBq : (B : ℚ) ≤ 2147483648 := by
    have : B ≤ 2147483648 := by omega
    exact_mod_cast this
  refine ⟨div_nonneg (sub_nonneg.mpr hkq) (le_of_lt hBpos), ?_⟩
  have h1 : ((B : ℚ) - (k : ℚ)) / (B : ℚ) = 1 - (k : ℚ) / (B : ℚ) := by
    field_simp
  rw [h1]
  have h2 : (k : ℚ) / 2147483648 ≤ (k : ℚ) / (B : ℚ) :=
    div_le_div_of_nonneg_left hk0 hBpos hBq
  linarith

/-- C8 fails as stated: with budget 3 and show_remain on, the first invocation
of `timeout_cb` sets the indicator fraction to the `gdouble` nearest to 2/3,
which is 6004799503160661 / 2^53 and not `(3 - 1) / 3` (the caption is 2). -/
theorem indicator_fraction_not_exact :
    (timeout_cb specResponse timeout3Options ⟨true⟩ true true (init specResponse)).1.log
      = [.set_fraction (6004799503160661 / 9007199254740992), .set_text 2] ∧
    (6004799503160661 / 9007199254740992 : ℚ) ≠ ((3 : ℚ) - 1) / 3 := by
  constructor
  · rw [timeout_cb_within specResponse timeout3Options ⟨true⟩ true true (init specResponse)
      (by decide)]
    have hq : (((timeout3Options.data.timeout : ℕ) : ℚ) - (((init specResponse).count : ℕ) : ℚ))
        / ((timeout3Options.data.timeout : ℕ) : ℚ) = 2 / 3 := by
      show (((3 : ℕ) : ℚ) - ((1 : ℕ) : ℚ)) / ((3 : ℕ) : ℚ) = 2 / 3
      norm_num
    have hcap : as_gint (timeout3Options.data.timeout + G_UINT_RANGE - (init specResponse).count)
        = 2 := by decide
    show (init specResponse).log ++ tick_effects timeout3Options ⟨true⟩ true
      (init specResponse).count = _
    unfold tick_effects
    rw [hq, hcap, round_gdouble_two_thirds]
    rfl
  · norm_num

/-- C8 as amended: for a budget `B` with `1 <= k <= B` (and `B` within the
positive range of a 32-bit signed integer), when an indicator widget exists,
the `k`-th invocation of `timeout_cb` sets the indicator fraction to the
`gdouble` nearest to `(B - k) / B` and, when show_remain is enabled, then sets
the caption to `B - k` seconds, and does nothing else; that fraction is within
relative error `2 ^ (-53)` of `(B - k) / B`, lies in `[0, 1)`, is `0` at
`k = B`, and is strictly smaller at every later tick. -/
theorem timeout_indicator_rounded (K : YadResponse) (o : YadOptions) (st : YadSettings)
    (ow : Bool) (s : State) (k : Nat) (hk1 : 1 ≤ k) (hkB : k ≤ o.data.timeout)
    (hB : o.data.timeout < 2 ^ 31) (hs : s.count = 1) :
    (timeout_cb K o st ow true (ticks K o st ow true (k - 1) s)).1.log
      = (ticks K o st ow true (k - 1) s).log ++
          (.set_fraction
              (round_gdouble (((o.data.timeout : ℚ) - (k : ℚ)) / (o.data.timeout : ℚ))) ::
            (if st.show_remain = true then [.set_text ((o.data.timeout : Int) - (k : Int))]
             else [])) ∧
    |round_gdouble (((o.data.timeout : ℚ) - (k : ℚ)) / (o.data.timeout : ℚ))
        - ((o.data.timeout : ℚ) - (k : ℚ)) / (o.data.timeout : ℚ)|
      ≤ ((o.data.timeout : ℚ) - (k : ℚ)) / (o.data.timeout : ℚ) / 2 ^ 53 ∧
    0 ≤ round_gdouble (((o.data.timeout : ℚ) - (k : ℚ)) / (o.data.timeout : ℚ)) ∧
    round_gdouble (((o.data.timeout : ℚ) - (k : ℚ)) / (o.data.timeout : ℚ)) < 1 ∧
    (k = o.data.timeout →
      round_gdouble (((o.data.timeout : ℚ) - (k : ℚ)) / (o.data.timeout : ℚ)) = 0) ∧
    ∀ j : Nat, k < j → j ≤ o.data.timeout →
      round_gdouble (((o.data.timeout : ℚ) - (j : ℚ)) / (o.data.timeout : ℚ))
        < round_gdouble (((o.data.timeout : ℚ) - (k : ℚ)) / (o.data.timeout : ℚ)) := by
  have hR : o.data.timeout + 1 < G_UINT_RANGE := by
    unfold G_UINT_RANGE
    omega
  obtain ⟨hc, -, -, -⟩ := ticks_within K o st ow true s hs hR (k - 1) (by omega)
  have hck : (ticks K o st ow true (k - 1) s).count = k := by
    rw [hc]
    omega
  have hBpos : (0 : ℚ) < (o.data.timeout : ℚ) := by
    have : 0 < o.data.timeout := by omega
    exact_mod_cast this
  have hcap : as_gint (o.data.timeout + G_UINT_RANGE - k) = (o.data.timeout : Int) - (k : Int) := by
    have hmod : (o.data.timeout + G_UINT_RANGE - k) % G_UINT_RANGE = o.data.timeout - k := by
      unfold G_UINT_RANGE
      omega
    unfold as_gint
    rw [hmod, if_pos (by omega)]
    omega
  obtain ⟨hx0, hx1⟩ := tick_quotient_bounds o.data.timeout k hk1 hkB hB
  have herr := round_gdouble_err _ hx0
  have hk1q : (1 : ℚ) ≤ (k : ℚ) := by exact_mod_cast hk1
  rw [abs_le] at herr
  refine ⟨?_, abs_le.mpr herr, ?_, ?_, ?_, ?_⟩
  · rw [timeout_cb_within K o st ow true _ (by rw [hck]; exact hkB)]
    show _ ++ tick_effects o st true (ticks K o st ow true (k - 1) s).count = _
    rw [hck]
    unfold tick_effects
    rw [if_pos rfl, hcap]
  · have : 0 ≤ ((o.data.timeout : ℚ) - (k : ℚ)) / (o.data.timeout : ℚ) / 2 ^ 53 :=
      div_nonneg hx0 (by norm_num)
    have h53 : ((o.data.timeout : ℚ) - (k : ℚ)) / (o.data.timeout : ℚ) / 2 ^ 53
        ≤ ((o.data.timeout : ℚ) - (k : ℚ)) / (o.data.timeout : ℚ) := by
      apply div_le_self hx0
      norm_num
    linarith [herr.1]
  · have h53 : ((o.data.timeout : ℚ) - (k : ℚ)) / (o.data.timeout : ℚ) / 2 ^ 53
        ≤ 1 / 2 ^ 53 := by
      apply div_le_div_of_nonneg_right _ (by norm_num)
      linarith
    have hnum : (1 : ℚ) / 2 ^ 53 < 1 / 2147483648 := by norm_num
    have hk2 : (1 : ℚ) / 2147483648 ≤ (k : ℚ) / 2147483648 :=
      div_le_div_of_nonneg_right hk1q (by norm_num)
    linarith [herr.2]
  · intro h
    rw [h, sub_self, zero_div, round_gdouble_zero]
  · intro j hkj hjB
    obtain ⟨hy0, hy1⟩ := tick_quotient_bounds o.data.timeout j (by omega) hjB hB
    have herrj := round_gdouble_err _ hy0
    rw [abs_le] at herrj
    have hjk : (k : ℚ) + 1 ≤ (j : ℚ) := by exact_mod_cast hkj
    have hBq : (o.data.timeout : ℚ) ≤ 2147483648 := by
      have : o.data.timeout ≤ 2147483648 := by omega
      exact_mod_cast this
    have hgap : ((o.data.timeout : ℚ) - (k : ℚ)) / (o.data.timeout : ℚ)
        - ((o.data.timeout : ℚ) - (j : ℚ)) / (o.data.timeout : ℚ) ≥ 1 / 2147483648 := by
      have h1 : ((o.data.timeout : ℚ) - (k : ℚ)) / (o.data.timeout : ℚ)
          - ((o.data.timeout : ℚ) - (j : ℚ)) / (o.data.timeout : ℚ)
          = ((j : ℚ) - (k : ℚ)) / (o.data.timeout : ℚ) := by
        field_simp
      rw [h1, ge_iff_le]
      calc (1 : ℚ) / 2147483648 ≤ 1 / (o.data.timeout : ℚ) :=
            div_le_div_of_nonneg_left (by norm_num) hBpos hBq
        _ ≤ ((j : ℚ) - (k : ℚ)) / (o.data.timeout : ℚ) :=
            div_le_div_of_nonneg_right (by linarith) (le_of_lt hBpos)
    have hxle : ((o.data.timeout : ℚ) - (k : ℚ)) / (o.data.timeout : ℚ) ≤ 1 := by linarith
    have hyle : ((o.data.timeout : ℚ) - (j : ℚ)) / (o.data.timeout : ℚ) ≤ 1 := by
      have : (0 : ℚ) ≤ (j : ℚ) / 2147483648 := div_nonneg (Nat.cast_nonneg j) (by norm_num)
      linarith
    have hx53 : ((o.data.timeout : ℚ) - (k : ℚ)) / (o.data.timeout : ℚ) / 2 ^ 53 ≤ 1 / 2 ^ 53 :=
      div_le_div_of_nonneg_right hxle (by norm_num)
    have hy53 : ((o.data.timeout : ℚ) - (j : ℚ)) / (o.data.timeout : ℚ) / 2 ^ 53 ≤ 1 / 2 ^ 53 :=
      div_le_div_of_nonneg_right hyle (by norm_num)
    have hnum : (1 : ℚ) / 2 ^ 53 + 1 / 2 ^ 53 < 1 / 2147483648 := by norm_num
    linarith [herr.1, herrj.2]

/-- Witness of `timeout_indicator_rounded`: budget 3, second tick, show_remain
on: the fraction is set to the `gdouble` nearest to `(3 - 2) / 3` and the
caption to 1 second. -/
theorem timeout_indicator_rounded_witness :
    (timeout_cb specResponse timeout3Options ⟨true⟩ true true
        (ticks specResponse timeout3Options ⟨true⟩ true true (2 - 1) (init specResponse))).1.log
      = (ticks specResponse timeout3Options ⟨true⟩ true true (2 - 1) (init specResponse)).log ++
          (.set_fraction
              (round_gdouble (((timeout3Options.data.timeout : ℚ) - ((2 : Nat) : ℚ))
                / (timeout3Options.data.timeout : ℚ))) ::
            (if (YadSettings.mk true).show_remain = true
              then [.set_text ((timeout3Options.data.timeout : Int) - ((2 : Nat) : Int))]
              else [])) ∧
    |round_gdouble (((timeout3Options.data.timeout : ℚ) - ((2 : Nat) : ℚ))
          / (timeout3Options.data.timeout : ℚ))
        - ((timeout3Options.data.timeout : ℚ) - ((2 : Nat) : ℚ))
          / (timeout3Options.data.timeout : ℚ)|
      ≤ ((timeout3Options.data.timeout : ℚ) - ((2 : Nat) : ℚ))
          / (timeout3Options.data.timeout : ℚ) / 2 ^ 53 ∧
    0 ≤ round_gdouble (((timeout3Options.data.timeout : ℚ) - ((2 : Nat) : ℚ))
          / (timeout3Options.data.timeout : ℚ)) ∧
    round_gdouble (((timeout3Options.data.timeout : ℚ) - ((2 : Nat) : ℚ))
          / (timeout3Options.data.timeout : ℚ)) < 1 ∧
    (2 = timeout3Options.data.timeout →
      round_gdouble (((timeout3Options.data.timeout : ℚ) - ((2 : Nat) : ℚ))
          / (timeout3Options.data.timeout : ℚ)) = 0) ∧
    ∀ j : Nat, 2 < j → j ≤ timeout3Options.data.timeout →
      round_gdouble (((timeout3Options.data.timeout : ℚ) - (j : ℚ))
          / (timeout3Options.data.timeout : ℚ))
        < round_gdouble (((timeout3Options.data.timeout : ℚ) - ((2 : Nat) : ℚ))
          / (timeout3Options.data.timeout : ℚ)) :=
  timeout_indicator_rounded specResponse timeout3Options ⟨true⟩ true (init specResponse) 2
    (by decide) (by decide) (by decide) rfl

/-! ## Key presses -/

/-- C9: in a standalone dialog (`plug = -1`), `keys_cb` on the Escape key calls
`yad_exit` with the default response if escape_ok is set (also when no_escape
is set), else calls `yad_exit` with the Escape sentinel if no_escape is not
set, else changes nothing; in all three cases it returns TRUE. -/
theorem keys_cb_escape (K : YadResponse) (o : YadOptions) (ow : Bool) (ev : GdkEventKey)
    (s : State) (hp : o.plug = -1) (hk : ev.keyval = GDK_KEY_Escape) :
    (keys_cb K o ow ev s).2 = true ∧
    (keys_cb K o ow ev s).1
      = (if o.data.escape_ok = true then yad_exit o ow o.data.def_resp s
         else if o.data.no_escape = false then yad_exit o ow K.esc s
         else s) := by
  unfold keys_cb
  rw [if_neg (by simp [hp]), if_pos hk]
  cases o.data.escape_ok <;> cases o.data.no_escape <;> simp

/-- Witness of `keys_cb_escape`: the sample dialog at program start; the Escape
key ends it with the Escape sentinel. -/
theorem keys_cb_escape_witness :
    (keys_cb specResponse sampleOptions true ⟨GDK_KEY_Escape, 0⟩ (init specResponse)).2 = true ∧
    (keys_cb specResponse sampleOptions true ⟨GDK_KEY_Escape, 0⟩ (init specResponse)).1
      = (if sampleOptions.data.escape_ok = true
          then yad_exit sampleOptions true sampleOptions.data.def_resp (init specResponse)
         else if sampleOptions.data.no_escape = false
          then yad_exit sampleOptions true specResponse.esc (init specResponse)
         else init specResponse) :=
  keys_cb_escape specResponse sampleOptions true ⟨GDK_KEY_Escape, 0⟩ (init specResponse) rfl rfl

/-- C10 fails as stated: with `plug = 0`, `keys_cb` on Control+Return returns
FALSE and leaves the state as it is - `yad_exit` is not called, `ret` keeps the
Escape sentinel instead of the default response 0. -/
theorem ctrl_enter_ignored_in_plug :
    plugOptions.data.def_resp = 0 ∧
    keys_cb specResponse plugOptions true ctrlReturn (init specResponse)
      = (init specResponse, false) ∧
    (keys_cb specResponse plugOptions true ctrlReturn (init specResponse)).1.ret ≠ 0 ∧
    yad_exit plugOptions true plugOptions.data.def_resp (init specResponse)
      ≠ (keys_cb specResponse plugOptions true ctrlReturn (init specResponse)).1 := by
  decide

/-- C10 as amended: for Return or keypad Enter, `keys_cb` calls `yad_exit` with
the default response and returns TRUE exactly when the dialog is standalone
(`plug = -1`) and the Control modifier is held, whatever escape_ok and
no_escape are; otherwise (no Control, or `plug` different from -1) it changes
nothing and returns FALSE. -/
theorem keys_cb_enter (K : YadResponse) (o : YadOptions) (ow : Bool) (ev : GdkEventKey)
    (s : State) (hk : ev.keyval = GDK_KEY_Return ∨ ev.keyval = GDK_KEY_KP_Enter) :
    keys_cb K o ow ev s
      = (if o.plug = -1 ∧ ev.state &&& GDK_CONTROL_MASK ≠ 0
          then (yad_exit o ow o.data.def_resp s, true)
         else (s, false)) := by
  have hne : ev.keyval ≠ GDK_KEY_Escape := by
    rcases hk with h | h <;> rw [h] <;> decide
  unfold keys_cb
  by_cases hp : o.plug = -1
  · rw [if_neg (by simp [hp]), if_neg hne, if_pos hk]
    by_cases hc : ev.state &&& GDK_CONTROL_MASK ≠ 0
    · rw [if_pos hc, if_pos ⟨hp, hc⟩]
    · rw [if_neg hc, if_neg (fun h => hc h.2)]
  · rw [if_pos hp, if_neg (fun h => hp h.1)]

/-- Witness of `keys_cb_enter`: Control+Return in the sample dialog. -/
theorem keys_cb_enter_witness :
    keys_cb specResponse sampleOptions true ctrlReturn (init specResponse)
      = (if sampleOptions.plug = -1 ∧ ctrlReturn.state &&& GDK_CONTROL_MASK ≠ 0
          then (yad_exit sampleOptions true sampleOptions.data.def_resp (init specResponse), true)
         else (init specResponse, false)) :=
  keys_cb_enter specResponse sampleOptions true ctrlReturn (init specResponse) (Or.inl rfl)

/-! ## Buttons and signals -/

/-- After `yad_exit (id)`, `ret` is `id` or what it was. -/
theorem ret_yad_exit_cases (o : YadOptions) (ow : Bool) (id : Int) (s : State) :
    (yad_exit o ow id s).ret = id ∨ (yad_exit o ow id s).ret = s.ret := by
  rw [ret_yad_exit]
  split_ifs
  · exact Or.inr rfl
  · exact Or.inl rfl

/-- The button bar for a custom button list: one button per entry, unless
buttons are suppressed. -/
theorem create_buttons_custom (K : YadResponse) (tk : Toolkit) (o : YadOptions)
    (hne : o.data.buttons ≠ []) :
    create_buttons K tk o
      = if o.data.no_buttons = true then none
        else some (o.data.buttons.map fun b =>
          { label := b.name, resp := b.response, cmd := b.cmd }) := by
  have hemp : o.data.buttons.isEmpty = false := by
    cases hb : o.data.buttons with
    | nil => exact absurd hb hne
    | cons b rest => rfl
  unfold create_buttons
  cases hn : o.data.no_buttons <;> simp [hemp]

/-- C11: `btn_cb` on a button with a command launches that command
asynchronously and does nothing else - `ret` and the number of `gtk_main_quit`
calls are unchanged; on a button without a command it is `yad_exit` with the
response code stored on the button; and the buttons that `create_dialog` makes
from a custom button list carry, in order, the response code and the command of
their list entries. -/
theorem btn_cb_activation (K : YadResponse) (tk : Toolkit) (o : YadOptions) (ow : Bool)
    (s : State) :
    (∀ (resp : Int) (c : String),
      (btn_cb o ow resp (some c) s).log = s.log ++ [.run_command_async c] ∧
      (btn_cb o ow resp (some c) s).ret = s.ret ∧
      occurrences .main_quit (btn_cb o ow resp (some c) s) = occurrences .main_quit s) ∧
    (∀ resp : Int, btn_cb o ow resp none s = yad_exit o ow resp s) ∧
    (∀ bs : List GtkButton, create_buttons K tk o = some bs → o.data.buttons ≠ [] →
      bs = o.data.buttons.map fun b => { label := b.name, resp := b.response, cmd := b.cmd }) := by
  refine ⟨fun resp c => ⟨rfl, rfl, ?_⟩, fun _ => rfl, ?_⟩
  · show occurrences .main_quit (emit (.run_command_async c) s) = _
    simp [occurrences_emit]
  · intro bs hbs hne
    rw [create_buttons_custom K tk o hne] at hbs
    split_ifs at hbs
    exact (Option.some.inj hbs).symm

/-- C12 fails as stated: in the sample dialog with always_print set, SIGUSR2
leaves `ret` at the Cancel code 1, not at the Escape sentinel, and `main` then
invokes `yad_print_result` once. -/
theorem usr2_is_cancel_not_escape :
    alwaysPrintOptions.plug = -1 ∧
    (sa_usr2 specResponse alwaysPrintOptions true (init specResponse)).ret = specResponse.cancel ∧
    (sa_usr2 specResponse alwaysPrintOptions true (init specResponse)).ret ≠ specResponse.esc ∧
    occurrences .print_result_call
      (main_after_loop specResponse alwaysPrintOptions
        (sa_usr2 specResponse alwaysPrintOptions true (init specResponse))).1 = 1 := by
  decide

/-- C12 as amended (for a Cancel code that is odd and differs from OK and from
both sentinels): in
a standalone dialog `sa_usr2` ends the dialog with `ret` equal to the Cancel
code, and `main` then invokes `yad_print_result` once if always_print is set
and not at all otherwise; in plug mode it only calls `gtk_main_quit` and leaves
`ret` unchanged. -/
theorem sa_usr2_cancel (K : YadResponse) (o : YadOptions) (ow : Bool) (s : State)
    (hK : ¬ Even K.cancel ∧ K.cancel ≠ K.ok ∧ K.cancel ≠ K.esc ∧ K.cancel ≠ K.timeout) :
    (o.plug = -1 →
      (sa_usr2 K o ow s).ret = K.cancel ∧
      occurrences .main_quit (sa_usr2 K o ow s) = occurrences .main_quit s + 1 ∧
      occurrences .print_result_call (main_after_loop K o (sa_usr2 K o ow s)).1
        = occurrences .print_result_call s + (if o.data.always_print = true then 1 else 0)) ∧
    (o.plug ≠ -1 →
      (sa_usr2 K o ow s).ret = s.ret ∧ (sa_usr2 K o ow s).log = s.log ++ [.main_quit]) := by
  obtain ⟨hodd, hok, hesc, hto⟩ := hK
  have hv : ¬ (o.mode = .file ∧ Even K.cancel ∧ ow = false) := fun h => hodd h.2.1
  constructor
  · intro hp
    have hdef : sa_usr2 K o ow s = yad_exit o ow K.cancel s := by
      unfold sa_usr2
      rw [if_neg (by simp [hp])]
    have hret : (yad_exit o ow K.cancel s).ret = K.cancel := by
      rw [ret_yad_exit, if_neg hv]
    rw [hdef]
    refine ⟨hret, ?_, ?_⟩
    · rw [quits_yad_exit, if_neg hv]
    · rw [calls_after_loop, calls_yad_exit, hret]
      congr 1
      apply if_congr _ rfl rfl
      constructor
      · rintro ⟨-, -, h | h | h⟩
        · exact h
        · exact absurd h.1 hok
        · exact absurd h hodd
      · intro h
        exact ⟨hesc, hto, Or.inl h⟩
  · intro hp
    unfold sa_usr2
    rw [if_pos hp]
    exact ⟨rfl, rfl⟩

/-- Witness of `sa_usr2_cancel`: the sample dialog with always_print set, at
program start. -/
theorem sa_usr2_cancel_witness :
    (alwaysPrintOptions.plug = -1 →
      (sa_usr2 specResponse alwaysPrintOptions true (init specResponse)).ret = specResponse.cancel ∧
      occurrences .main_quit (sa_usr2 specResponse alwaysPrintOptions true (init specResponse))
        = occurrences .main_quit (init specResponse) + 1 ∧
      occurrences .print_result_call
          (main_after_loop specResponse alwaysPrintOptions
            (sa_usr2 specResponse alwaysPrintOptions true (init specResponse))).1
        = occurrences .print_result_call (init specResponse)
          + (if alwaysPrintOptions.data.always_print = true then 1 else 0)) ∧
    (alwaysPrintOptions.plug ≠ -1 →
      (sa_usr2 specResponse alwaysPrintOptions true (init specResponse)).ret
        = (init specResponse).ret ∧
      (sa_usr2 specResponse alwaysPrintOptions true (init specResponse)).log
        = (init specResponse).log ++ [.main_quit]) :=
  sa_usr2_cancel specResponse alwaysPrintOptions true (init specResponse) (by decide)

/-! ## Terminal states -/

/-- One event keeps `ret` among the terminal values. -/
theorem dispatch_terminal (K : YadResponse) (tk : Toolkit) (o : YadOptions) (st : YadSettings)
    (e : Event) (s : State) (he : from_bar (button_bar K tk o) e)
    (hs : terminal_value K o (button_bar K tk o) s.ret) :
    terminal_value K o (button_bar K tk o) (dispatch K o st e s).ret := by
  have hx : ∀ (ow : Bool) (id : Int), terminal_value K o (button_bar K tk o) id →
      terminal_value K o (button_bar K tk o) (yad_exit o ow id s).ret := by
    intro ow id hid
    rcases ret_yad_exit_cases o ow id s with h | h <;> rw [h]
    · exact hid
    · exact hs
  have hdef : terminal_value K o (button_bar K tk o) o.data.def_resp :=
    Or.inr (Or.inr (Or.inl rfl))
  cases e with
  | key ev ow =>
    show terminal_value K o _ (keys_cb K o ow ev s).1.ret
    unfold keys_cb
    split_ifs
    · exact hs
    · exact hx ow _ hdef
    · exact hx ow _ (Or.inl rfl)
    · exact hs
    · exact hx ow _ hdef
    · exact hs
    · exact hs
  | button resp cmd ow =>
    show terminal_value K o _ (btn_cb o ow resp cmd s).ret
    cases cmd with
    | some c => exact hs
    | none =>
      obtain ⟨w, hw, hr, -⟩ := he
      exact hx ow resp (Or.inr (Or.inr (Or.inr (Or.inr ⟨w, hw, hr⟩))))
  | delete => exact hs
  | unfocus =>
    show terminal_value K o _ (unfocus_cb o s).1.ret
    rw [ret_unfocus_cb]
    exact hs
  | usr1 ow =>
    show terminal_value K o _ (sa_usr1 o ow s).ret
    unfold sa_usr1
    split_ifs
    · rw [ret_yad_print_result]
      exact hs
    · exact hx ow _ hdef
  | usr2 ow =>
    show terminal_value K o _ (sa_usr2 K o ow s).ret
    unfold sa_usr2 gtk_main_quit
    split_ifs
    · exact hs
    · exact hx ow _ (Or.inr (Or.inr (Or.inr (Or.inl rfl))))
  | tick w ow =>
    show terminal_value K o _ (timeout_cb K o st ow w s).1.ret
    by_cases hc : o.data.timeout < s.count
    · unfold timeout_cb
      rw [if_pos hc]
      exact hx ow _ (Or.inr (Or.inl rfl))
    · rw [timeout_cb_within K o st ow w s (Nat.not_lt.mp hc)]
      exact hs

/-- A sequence of events keeps `ret` among the terminal values. -/
theorem run_terminal (K : YadResponse) (tk : Toolkit) (o : YadOptions) (st : YadSettings)
    (es : List Event) : ∀ s : State, (∀ e ∈ es, from_bar (button_bar K tk o) e) →
      terminal_value K o (button_bar K tk o) s.ret →
      terminal_value K o (button_bar K tk o) (run K o st es s).ret := by
  induction es with
  | nil =>
    intro s _ hs
    exact hs
  | cons e es ih =>
    intro s h hs
    rw [run_cons]
    exact ih _ (fun x hx => h x (List.mem_cons_of_mem e hx))
      (dispatch_terminal K tk o st e s (h e (List.mem_cons_self e es)) hs)

/-- C13 fails as stated: in the sample dialog with default response 5 (buttons
OK and Cancel), Control+Return ends the loop with `ret = 5`, which is neither a
code of a button of the bar nor a sentinel; and in a Progress dialog (sole
button Close, code OK) SIGUSR2 ends the loop with the Cancel code 1. -/
theorem terminal_value_outside_bar :
    (run specResponse optionsDefResp5 ⟨false⟩ [.key ctrlReturn true] (init specResponse)).ret = 5 ∧
    (button_bar specResponse sampleToolkit optionsDefResp5).map (fun w => w.resp) = [0, 1] ∧
    (5 : Int) ≠ specResponse.esc ∧ (5 : Int) ≠ specResponse.timeout ∧
    (run specResponse progressOptions ⟨false⟩ [.usr2 true] (init specResponse)).ret = 1 ∧
    (button_bar specResponse sampleToolkit progressOptions).map (fun w => w.resp) = [0] ∧
    (1 : Int) ≠ specResponse.esc ∧ (1 : Int) ≠ specResponse.timeout := by
  decide

/-- C13 as amended: for every configuration and every sequence of events from
program start in which the button events are clicks on buttons of the button
bar, `ret` is the Escape sentinel, the Timeout sentinel, the configured default
response, the Cancel code, or the response code of a button of the bar. -/
theorem terminal_states (K : YadResponse) (tk : Toolkit) (o : YadOptions) (st : YadSettings)
    (es : List Event) (hes : ∀ e ∈ es, from_bar (button_bar K tk o) e) :
    (run K o st es (init K)).ret = K.esc ∨
    (run K o st es (init K)).ret = K.timeout ∨
    (run K o st es (init K)).ret = o.data.def_resp ∨
    (run K o st es (init K)).ret = K.cancel ∨
    ∃ w ∈ button_bar K tk o, w.resp = (run K o st es (init K)).ret :=
  run_terminal K tk o st es (init K) hes (Or.inl rfl)

/-- Witness of `terminal_states`: a click on OK, then SIGUSR1, in the sample
dialog. -/
theorem terminal_states_witness :
    (run specResponse sampleOptions ⟨false⟩ [.button 0 none true, .usr1 true]
      (init specResponse)).ret = specResponse.esc ∨
    (run specResponse sampleOptions ⟨false⟩ [.button 0 none true, .usr1 true]
      (init specResponse)).ret = specResponse.timeout ∨
    (run specResponse sampleOptions ⟨false⟩ [.button 0 none true, .usr1 true]
      (init specResponse)).ret = sampleOptions.data.def_resp ∨
    (run specResponse sampleOptions ⟨false⟩ [.button 0 none true, .usr1 true]
      (init specResponse)).ret = specResponse.cancel ∨
    ∃ w ∈ button_bar specResponse sampleToolkit sampleOptions,
      w.resp = (run specResponse sampleOptions ⟨false⟩ [.button 0 none true, .usr1 true]
        (init specResponse)).ret :=
  terminal_states specResponse sampleToolkit sampleOptions ⟨false⟩
    [.button 0 none true, .usr1 true] (by
      intro e he
      simp only [List.mem_cons, List.mem_singleton, List.not_mem_nil, or_false] at he
      rcases he with he | he
      · subst he
        exact ⟨⟨"gtk-ok", 0, none⟩, by decide, rfl, rfl⟩
      · subst he
        trivial)

/-! ## Progress dialogs and parent signalling -/

/-- The log that `yad_print_result` writes: the call, then the producer of the
mode when the mode has one. -/
theorem log_yad_print_result (o : YadOptions) (s : State) :
    (yad_print_result o s).log
      = s.log ++ .print_result_call ::
          (if o.mode ∈ producer_modes then [.mode_print_result o.mode] else []) := by
  unfold yad_print_result producer_modes emit
  cases o.mode <;> simp

/-- In Progress mode the post-loop part of `main` runs no result producer. -/
theorem producers_after_loop_progress (K : YadResponse) (o : YadOptions) (s : State)
    (hm : o.mode = .progress) (m : YadMode) :
    occurrences (.mode_print_result m) (main_after_loop K o s).1
      = occurrences (.mode_print_result m) s := by
  have hp : occurrences (.mode_print_result m) (yad_print_result o s)
      = occurrences (.mode_print_result m) s := by
    unfold occurrences
    rw [log_yad_print_result, hm]
    simp [producer_modes, List.count_append, List.count_cons]
  have hg : occurrences (.mode_print_result m) (print_results K o s)
      = occurrences (.mode_print_result m) s := by
    unfold print_results
    split_ifs <;> first | exact hp | rfl
  unfold main_after_loop
  simp only [hm]
  split_ifs <;> simp [occurrences_emit, hg]

/-- C14: in Progress mode with no custom buttons and buttons not suppressed,
the button bar built by `create_dialog` holds exactly one button, with response
code OK and no command; a click on it sets `ret` to OK, asks the loop to end
once, `main` returns OK, and no result producer runs; for `yad_print_result`
runs a producer exactly for Calendar, Color, Entry, File, Font, Form, List,
Notebook, Paned, Scale and TextInfo, and none for any other mode. -/
theorem progress_close_button (K : YadResponse) (tk : Toolkit) (o : YadOptions)
    (st : YadSettings) (ow : Bool) (s : State)
    (hm : o.mode = .progress) (hb : o.data.buttons = []) (hn : o.data.no_buttons = false) :
    button_bar K tk o = [{ label := "gtk-close", resp := K.ok, cmd := none }] ∧
    (create_dialog K tk o st).vbox.starts.getLast?
      = some (.bbox [{ label := "gtk-close", resp := K.ok, cmd := none }]) ∧
    (∀ w ∈ button_bar K tk o,
      (clicked o ow w s).ret = K.ok ∧
      occurrences .main_quit (clicked o ow w s) = occurrences .main_quit s + 1 ∧
      (main_after_loop K o (clicked o ow w s)).2 = K.ok ∧
      ∀ m : YadMode,
        occurrences (.mode_print_result m) (main_after_loop K o (clicked o ow w s)).1
          = occurrences (.mode_print_result m) s) ∧
    (∀ (o' : YadOptions) (s' : State),
      (yad_print_result o' s').log
        = s'.log ++ .print_result_call ::
            (if o'.mode ∈ ([.calendar, .color, .entry, .file, .font, .form, .list, .notebook,
                .paned, .scale, .textinfo] : List YadMode)
              then [.mode_print_result o'.mode] else [])) := by
  have hbtn : create_buttons K tk o = some [{ label := "gtk-close", resp := K.ok, cmd := none }] := by
    unfold create_buttons
    simp [hm, hb, hn]
  have hbar : button_bar K tk o = [{ label := "gtk-close", resp := K.ok, cmd := none }] := by
    unfold button_bar
    rw [hbtn]
    rfl
  have hv : ¬ (o.mode = .file ∧ Even K.ok) := by
    rw [hm]
    exact fun h => YadMode.noConfusion h.1
  refine ⟨hbar, ?_, ?_, fun o' s' => log_yad_print_result o' s'⟩
  · unfold create_dialog
    simp only [hbtn, Box.pack_start]
    simp
  · intro w hw
    rw [hbar, List.mem_singleton] at hw
    subst hw
    have hc : clicked o ow { label := "gtk-close", resp := K.ok, cmd := none } s
        = emit .main_quit { s with ret := K.ok } := yad_exit_direct o ow K.ok s hv
    rw [hc]
    refine ⟨rfl, ?_, ?_, ?_⟩
    · rw [occurrences_emit, occurrences_with_ret]
      simp
    · rw [ret_main_after_loop]
      rfl
    · intro m
      rw [producers_after_loop_progress K o _ hm m, occurrences_emit, occurrences_with_ret]
      simp

/-- Witness of `progress_close_button`: the Progress dialog `progressOptions`
at program start. -/
theorem progress_close_button_witness :
    button_bar specResponse sampleToolkit progressOptions
      = [{ label := "gtk-close", resp := specResponse.ok, cmd := none }] ∧
    (create_dialog specResponse sampleToolkit progressOptions ⟨false⟩).vbox.starts.getLast?
      = some (.bbox [{ label := "gtk-close", resp := specResponse.ok, cmd := none }]) ∧
    (∀ w ∈ button_bar specResponse sampleToolkit progressOptions,
      (clicked progressOptions true w (init specResponse)).ret = specResponse.ok ∧
      occurrences .main_quit (clicked progressOptions true w (init specResponse))
        = occurrences .main_quit (init specResponse) + 1 ∧
      (main_after_loop specResponse progressOptions
        (clicked progressOptions true w (init specResponse))).2 = specResponse.ok ∧
      ∀ m : YadMode,
        occurrences (.mode_print_result m)
            (main_after_loop specResponse progressOptions
              (clicked progressOptions true w (init specResponse))).1
          = occurrences (.mode_print_result m) (init specResponse)) ∧
    (∀ (o' : YadOptions) (s' : State),
      (yad_print_result o' s').log
        = s'.log ++ .print_result_call ::
            (if o'.mode ∈ ([.calendar, .color, .entry, .file, .font, .form, .list, .notebook,
                .paned, .scale, .textinfo] : List YadMode)
              then [.mode_print_result o'.mode] else [])) :=
  progress_close_button specResponse sampleToolkit progressOptions ⟨false⟩ true
    (init specResponse) rfl rfl rfl

theorem kills_emit (e : Effect) (s : State) :
    kills (emit e s) = kills s ++ (match e with
      | .kill_ppid sig => [sig]
      | _ => []) := by
  unfold kills emit
  cases e <;> simp [List.filterMap_append]

theorem kills_yad_print_result (o : YadOptions) (s : State) :
    kills (yad_print_result o s) = kills s := by
  unfold kills
  rw [log_yad_print_result]
  split_ifs <;> simp [List.filterMap_append, List.filterMap_cons]

theorem kills_print_results (K : YadResponse) (o : YadOptions) (s : State) :
    kills (print_results K o s) = kills s := by
  unfold print_results
  split_ifs <;> first | exact kills_yad_print_result o s | rfl

/-- The signals that the default branch of `main` and the code after the switch
send after the loop. -/
theorem kills_main_after_loop (K : YadResponse) (o : YadOptions) (s : State) :
    kills (main_after_loop K o s).1
      = kills s ++
        (if o.kill_parent = 0 ∧ o.mode = .progress ∧ o.autokill = true ∧ s.ret ≠ K.ok
          then [SIGHUP] else []) ++
        (if 0 < o.kill_parent ∧ o.kill_parent < NSIG then [o.kill_parent] else []) := by
  have hr : (print_results K o s).ret = s.ret := ret_print_results K o s
  have hk : kills (print_results K o s) = kills s := kills_print_results K o s
  unfold main_after_loop
  simp only
  split_ifs <;> simp_all [kills_emit, ret_emit]

/-- C15 fails as stated: a standalone Progress dialog with auto-kill and
kill-parent signal 15 that ends with the Cancel code 1 (not OK) sends signal 15
to the parent and no SIGHUP. -/
theorem autokill_suppressed_by_kill_parent :
    progressKill15.mode = .progress ∧ progressKill15.autokill = true ∧
    progressKill15.plug = -1 ∧
    ({ init specResponse with ret := 1 } : State).ret ≠ specResponse.ok ∧
    kills (main_after_loop specResponse progressKill15 { init specResponse with ret := 1 }).1
      = [15] ∧
    SIGHUP ∉ kills
      (main_after_loop specResponse progressKill15 { init specResponse with ret := 1 }).1 ∧
    kills (main_exit specResponse x11Platform progressKill15 0
      { init specResponse with ret := 1 }).1 = [15] := by
  decide

/-- In plug mode `main` returns right after the loop: a Progress dialog with
auto-kill run as a plug, whose `ret` is still the Escape sentinel (not OK),
sends no signal to the parent. -/
theorem plug_mode_sends_no_signal :
    progressPlug.mode = .progress ∧ progressPlug.autokill = true ∧
    (init specResponse).ret ≠ specResponse.ok ∧
    kills (main_exit specResponse x11Platform progressPlug 0 (init specResponse)).1 = [] ∧
    (main_exit specResponse x11Platform progressPlug 0 (init specResponse)).2
      = specResponse.esc := by
  decide

/-- C15 as amended: in a run of `main` that reaches the code after the switch
(a standalone dialog - `plug = -1`, or plug mode dropped outside X11 - whose
mode `main` does not refuse outside X11), `main` sends SIGHUP to the parent
exactly when no kill-parent signal is configured (`kill_parent = 0`), the mode
is Progress, auto-kill is set and `ret` differs from OK; then it sends the
kill-parent signal exactly when that number is positive and below `NSIG`; it
sends nothing else, so 0 (like any number outside that range) disables the
second signal, and a non-zero kill-parent number disables the auto-kill. In
every other run (plug mode, or a mode refused outside X11) `main` returns
before both and sends nothing. -/
theorem parent_signalling (K : YadResponse) (pf : Platform) (o : YadOptions) (ext : Int)
    (s : State) :
    kills (main_exit K pf o ext s).1
      = kills s ++
        (if reaches_exit pf o then
          (if o.kill_parent = 0 ∧ o.mode = .progress ∧ o.autokill = true ∧ s.ret ≠ K.ok
            then [SIGHUP] else []) ++
          (if 0 < o.kill_parent ∧ o.kill_parent < NSIG then [o.kill_parent] else [])
         else []) := by
  have hspecial : ∀ r : Int, o.mode ≠ .progress →
      kills (if 0 < o.kill_parent ∧ o.kill_parent < NSIG
              then emit (.kill_ppid o.kill_parent) { s with ret := r }
              else { s with ret := r })
        = kills s ++
          ((if o.kill_parent = 0 ∧ o.mode = .progress ∧ o.autokill = true ∧ s.ret ≠ K.ok
              then [SIGHUP] else []) ++
            (if 0 < o.kill_parent ∧ o.kill_parent < NSIG then [o.kill_parent] else [])) := by
    intro r hm
    have hno : ¬ (o.kill_parent = 0 ∧ o.mode = .progress ∧ o.autokill = true ∧ s.ret ≠ K.ok) :=
      fun h => hm h.2.1
    by_cases hk : 0 < o.kill_parent ∧ o.kill_parent < NSIG
    · rw [if_pos hk, if_neg hno, if_pos hk, kills_emit]
      rfl
    · rw [if_neg hk, if_neg hno, if_neg hk]
      simp [kills]
  have hdefault : kills (main_after_loop K o s).1
      = kills s ++
          ((if o.kill_parent = 0 ∧ o.mode = .progress ∧ o.autokill = true ∧ s.ret ≠ K.ok
              then [SIGHUP] else []) ++
            (if 0 < o.kill_parent ∧ o.kill_parent < NSIG then [o.kill_parent] else [])) := by
    rw [kills_main_after_loop, List.append_assoc]
  unfold main_exit
  simp only
  by_cases hplug : (if pf.is_x11 = false ∧ o.plug ≠ -1 then (-1 : Int) else o.plug) ≠ -1
  · have hnr : ¬ reaches_exit pf o := by
      unfold reaches_exit
      rintro ⟨h1, -⟩
      split_ifs at hplug with hc
      · exact hplug rfl
      · rcases h1 with h1 | h1
        · exact hplug h1
        · exact hc ⟨h1, hplug⟩
    rw [if_pos hplug, if_neg hnr]
    simp
  · rw [if_neg hplug]
    have hst : o.plug = -1 ∨ pf.is_x11 = false := by
      by_cases hx : pf.is_x11 = false
      · exact Or.inr hx
      · left
        rw [if_neg (fun h => hx h.1)] at hplug
        exact not_not.mp hplug
    by_cases hearly : pf.is_x11 = false ∧
        (o.mode = .notebook ∨ o.mode = .paned ∨ (pf.have_tray = true ∧ o.mode = .notification))
    · have hnr : ¬ reaches_exit pf o := fun h => h.2 hearly
      rw [if_pos hearly, if_neg hnr]
      simp
    · have hr : reaches_exit pf o := ⟨hst, hearly⟩
      rw [if_neg hearly, if_pos hr]
      generalize o.mode = m at hdefault hspecial ⊢
      cases m <;> dsimp only <;>
        first
        | exact hdefault
        | exact hspecial _ (by decide)
        | (cases pf.have_tray <;>
            first
            | exact hdefault
            | exact hspecial _ (by decide))

/-! ## Window assembly -/

/-- Packing the button bar adds no packing of the layout. -/
theorem layout_packings_bbox (l : Layout) (d : Dialog) (bs : List GtkButton) :
    layout_packings l { d with vbox := d.vbox.pack_start (.bbox bs) } = layout_packings l d := by
  unfold layout_packings Box.pack_start
  simp [List.map_append, List.sum_append]

/-- The content assembly without the button bar packs the layout once whenever
a `cbox` is built. -/
theorem layout_packings_cbox (o : YadOptions) (st : YadSettings) (l : Layout) (b : Box CChild)
    (h : create_cbox o st l = some b) : (b.starts ++ b.ends).count (.layout l) = 1 := by
  unfold create_cbox at h
  cases hi : create_indicator o st with
  | none =>
    simp only [hi] at h
    rw [← Option.some.inj h]
    simp [Box.pack_start]
  | some topb =>
    simp only [hi] at h
    split_ifs at h <;> rw [← Option.some.inj h] <;>
      simp [Box.pack_start, Box.pack_end, List.count_cons]

/-- Outside the failing case of C16 the layout is attached exactly once: when
the timeout is 0, when no indicator is built (placement unset or "none"), and
when the placement is one of "top", "bottom", "left", "right". -/
theorem layout_packed_once (K : YadResponse) (tk : Toolkit) (o : YadOptions) (st : YadSettings)
    (h : o.data.timeout = 0 ∨ create_indicator o st = none ∨
      ∃ t, o.data.to_indicator = some t ∧
        (strcasecmp_eq t "top" = true ∨ strcasecmp_eq t "bottom" = true ∨
          strcasecmp_eq t "left" = true ∨ strcasecmp_eq t "right" = true)) :
    layout_packings (create_layout tk o) (create_dialog K tk o st) = 1 := by
  have hc : o.data.timeout ≠ 0 → ∃ b, create_cbox o st (create_layout tk o) = some b := by
    intro h0
    rcases h with h | h | ⟨t, ht, hp⟩
    · exact absurd h h0
    · unfold create_cbox
      rw [h]
      exact ⟨_, rfl⟩
    · unfold create_cbox
      cases hi : create_indicator o st with
      | none => exact ⟨_, rfl⟩
      | some topb =>
        simp only [ht, Option.getD_some]
        by_cases h1 : strcasecmp_eq t "top" = true
        · rw [if_pos h1]
          exact ⟨_, rfl⟩
        · rw [if_neg h1]
          by_cases h2 : strcasecmp_eq t "bottom" = true
          · rw [if_pos h2]
            exact ⟨_, rfl⟩
          · rw [if_neg h2]
            by_cases h3 : strcasecmp_eq t "left" = true
            · rw [if_pos h3]
              exact ⟨_, rfl⟩
            · rw [if_neg h3]
              have h4 : strcasecmp_eq t "right" = true := by tauto
              rw [if_pos h4]
              exact ⟨_, rfl⟩
  have hbase : layout_packings (create_layout tk o)
      (if o.data.timeout ≠ 0 then
        { vbox := match create_cbox o st (create_layout tk o) with
            | some cbox => (Box.mk true [] []).pack_start (.cbox cbox)
            | none => Box.mk true [] [],
          timer := some (create_indicator o st) }
       else { vbox := (Box.mk true [] []).pack_start (.layout (create_layout tk o)),
              timer := none }) = 1 := by
    by_cases h0 : o.data.timeout ≠ 0
    · obtain ⟨b, hb⟩ := hc h0
      rw [if_pos h0, hb]
      have := layout_packings_cbox o st _ b hb
      simp only [layout_packings, Box.pack_start]
      simpa using this
    · rw [if_neg h0]
      simp [layout_packings, Box.pack_start]
  unfold create_dialog
  simp only
  cases create_buttons K tk o with
  | none => exact hbase
  | some bs =>
    simp only
    rw [layout_packings_bbox]
    exact hbase

/-- C16, the code at the failing input: with a timeout of 5 seconds and the
indicator placement "middle", the indicator is built but no `cbox` is, and the
content box of the dialog holds the button bar only - the region returned by
`create_layout` is packed nowhere. -/
theorem layout_dropped_for_unknown_placement :
    middleIndicatorOptions.data.timeout = 5 ∧
    middleIndicatorOptions.data.to_indicator = some "middle" ∧
    (create_indicator middleIndicatorOptions ⟨false⟩).isSome = true ∧
    create_cbox middleIndicatorOptions ⟨false⟩
      (create_layout sampleToolkit middleIndicatorOptions) = none ∧
    (create_dialog specResponse sampleToolkit middleIndicatorOptions ⟨false⟩).vbox
      = { vertical := true,
          starts := [.bbox [{ label := "gtk-ok", resp := 0, cmd := none },
                            { label := "gtk-cancel", resp := 1, cmd := none }]],
          ends := [] } ∧
    layout_packings (create_layout sampleToolkit middleIndicatorOptions)
      (create_dialog specResponse sampleToolkit middleIndicatorOptions ⟨false⟩) = 0 := by
  decide

/-- The layout of `richOptions` (image, label "Name", Entry widget under the
expander "More"), image at the side and image on top. -/
theorem create_layout_rich :
    create_layout sampleToolkit richOptions
      = { vertical := false,
          starts := [.leaf .image,
                     .box { vertical := true,
                            starts := [.label "Name", .expander "More" false .entry],
                            ends := [] }],
          ends := [] } ∧
    create_layout sampleToolkit
        { richOptions with data := { richOptions.data with image_on_top := true } }
      = { vertical := true,
          starts := [.box { vertical := false, starts := [.image, .label "Name"], ends := [] },
                     .leaf (.expander "More" false .entry)],
          ends := [] } := by
  decide

/-- C17: `create_layout` is total and returns, with image_on_top, a vertical
box holding a horizontal box of (image if any, label if any) and then the
(possibly wrapped) mode widget if any; otherwise a horizontal box holding the
image if any and then a vertical box of (label if any, (possibly wrapped) mode
widget if any). The mode widget is wrapped in a collapsed expander exactly when
it exists and an expander caption is configured; without a caption it is packed
as it is; and nothing stands for an absent mode widget. -/
theorem create_layout_structure (tk : Toolkit) (o : YadOptions) :
    create_layout tk o
      = (if o.data.image_on_top = true then
          { vertical := true,
            starts := .box { vertical := false,
                             starts := (layout_image o).toList ++ (layout_text o).toList,
                             ends := [] }
                      :: (layout_imw tk o).toList.map .leaf,
            ends := [] }
         else
          { vertical := false,
            starts := (layout_image o).toList.map .leaf ++
                      [.box { vertical := true,
                              starts := (layout_text o).toList ++ (layout_imw tk o).toList,
                              ends := [] }],
            ends := [] }) ∧
    ((layout_image o = some .image ↔ o.data.dialog_image.isSome = true) ∧
      (layout_image o = none ↔ o.data.dialog_image.isSome = false)) ∧
    ((∃ cap m, layout_imw tk o = some (.expander cap false m)) ↔
      ((create_main_widget tk o).isSome = true ∧ o.data.expander.isSome = true)) ∧
    (∀ cap e m, layout_imw tk o = some (.expander cap e m) →
      e = false ∧ o.data.expander = some cap ∧ create_main_widget tk o = some m) ∧
    (o.data.expander = none →
      layout_imw tk o = (create_main_widget tk o).map .main_widget) ∧
    (layout_imw tk o = none ↔ create_main_widget tk o = none) := by
  refine ⟨?_, ?_, ?_, ?_, ?_, ?_⟩
  · unfold create_layout
    cases o.data.image_on_top <;> cases layout_image o <;> cases layout_text o <;>
      cases layout_imw tk o <;> rfl
  · unfold layout_image
    cases o.data.dialog_image <;> simp
  · unfold layout_imw
    cases create_main_widget tk o <;> cases o.data.expander <;> simp
  · intro cap e m h
    unfold layout_imw at h
    cases hm : create_main_widget tk o <;> cases he : o.data.expander <;>
      simp only [hm, he] at h <;> simp_all
  · intro h
    unfold layout_imw
    rw [h]
    cases create_main_widget tk o <;> rfl
  · unfold layout_imw
    cases create_main_widget tk o <;> cases o.data.expander <;> simp

/-- Inside the `gint` range nothing wraps. -/
theorem wrap_gint_of_is_gint (x : Int) (h : is_gint x) : wrap_gint x = x := by
  unfold is_gint at h
  unfold wrap_gint
  omega

/-- Outside the `gint` range the placement wraps: centering with the configured
width -2147483647 on a 1920 pixel wide screen moves the window to
x = -1073740864. -/
theorem final_placement_wraps :
    final_placement
        { sampleOptions with
          data := { sampleOptions.data with center := true, width := -2147483647 } }
        sampleWindowSystem
      = some (-1073740864, 390) := by
  decide

/-- C18: for a window that is neither maximized nor fullscreen, as long as no
`gint` addition or subtraction of the placement overflows: with center set it
is moved to `((sw - width) / 2, (sh - height) / 2)`, width and height being the
configured ones or, when left at -1, the current window size; otherwise, with
an explicit x or y, it is moved to the pair made of `x0` and `y0` (the explicit
coordinate, or the current window position for the one not given), where a
negative coordinate `c` is replaced by `sw - ww + c` resp. `sh - wh + c` - so
that the far edge lies `|c|` inside the far screen edge - and a non-negative
one is kept; with none of center, explicit x, explicit y it is not moved. -/
theorem final_placement_rule (o : YadOptions) (ws : WindowSystem)
    (hmax : o.data.maximized = false) (hfull : o.data.fullscreen = false) :
    (o.data.center = true →
      is_gint (ws.sw - (if o.data.width = -1 then ws.cw else o.data.width)) →
      is_gint (ws.sh - (if o.data.height = -1 then ws.ch else o.data.height)) →
      final_placement o ws
        = some (Int.tdiv (ws.sw - (if o.data.width = -1 then ws.cw else o.data.width)) 2,
                Int.tdiv (ws.sh - (if o.data.height = -1 then ws.ch else o.data.height)) 2)) ∧
    (o.data.center = false → (o.data.use_posx = true ∨ o.data.use_posy = true) →
      ∀ x0 y0 : Int,
        x0 = (if o.data.use_posx = true then o.data.posx else ws.cur_x) →
        y0 = (if o.data.use_posy = true then o.data.posy else ws.cur_y) →
        (x0 < 0 → is_gint (ws.sw - ws.ww) ∧ is_gint (ws.sw - ws.ww + x0)) →
        (y0 < 0 → is_gint (ws.sh - ws.wh) ∧ is_gint (ws.sh - ws.wh + y0)) →
        final_placement o ws
          = some (if x0 < 0 then ws.sw - ws.ww + x0 else x0,
                  if y0 < 0 then ws.sh - ws.wh + y0 else y0) ∧
        (x0 < 0 → ws.sw - ws.ww + x0 + ws.ww = ws.sw - |x0|) ∧
        (y0 < 0 → ws.sh - ws.wh + y0 + ws.wh = ws.sh - |y0|)) ∧
    (o.data.center = false → o.data.use_posx = false → o.data.use_posy = false →
      final_placement o ws = none) := by
  refine ⟨?_, ?_, ?_⟩
  · intro hc hw hh
    unfold final_placement
    rw [if_pos ⟨hmax, hfull⟩]
    simp only [hc]
    rw [wrap_gint_of_is_gint _ hw, wrap_gint_of_is_gint _ hh]
    simp
  · intro hc hxy x0 y0 hx0 hy0 hxr hyr
    have hxw : (if x0 < 0 then wrap_gint (wrap_gint (ws.sw - ws.ww) + x0) else x0)
        = if x0 < 0 then ws.sw - ws.ww + x0 else x0 := by
      by_cases h : x0 < 0
      · rw [if_pos h, if_pos h, wrap_gint_of_is_gint _ (hxr h).1,
          wrap_gint_of_is_gint _ (hxr h).2]
      · rw [if_neg h, if_neg h]
    have hyw : (if y0 < 0 then wrap_gint (wrap_gint (ws.sh - ws.wh) + y0) else y0)
        = if y0 < 0 then ws.sh - ws.wh + y0 else y0 := by
      by_cases h : y0 < 0
      · rw [if_pos h, if_pos h, wrap_gint_of_is_gint _ (hyr h).1,
          wrap_gint_of_is_gint _ (hyr h).2]
      · rw [if_neg h, if_neg h]
    refine ⟨?_, ?_, ?_⟩
    · rw [← hxw, ← hyw, hx0, hy0]
      unfold final_placement
      rw [if_pos ⟨hmax, hfull⟩]
      simp only [hc]
      rw [if_pos (by simpa using hxy)]
      cases o.data.use_posx <;> cases o.data.use_posy <;> simp
    · intro h0
      rw [abs_of_neg h0]
      ring
    · intro h0
      rw [abs_of_neg h0]
      ring
  · intro hc hx hy
    unfold final_placement
    simp [hmax, hfull, hc, hx, hy]

/-- Witness of `final_placement_rule`: a 400x300 window placed at the explicit
position (-10, 20) on a 1920x1080 screen is moved to (1510, 20). -/
theorem final_placement_rule_witness :
    final_placement placedOptions sampleWindowSystem = some (1510, 20) ∧
    (is_gint (sampleWindowSystem.sw - sampleWindowSystem.ww) ∧
      is_gint (sampleWindowSystem.sw - sampleWindowSystem.ww + placedOptions.data.posx)) ∧
    ((placedOptions.data.center = true →
      is_gint (sampleWindowSystem.sw -
        (if placedOptions.data.width = -1 then sampleWindowSystem.cw
         else placedOptions.data.width)) →
      is_gint (sampleWindowSystem.sh -
        (if placedOptions.data.height = -1 then sampleWindowSystem.ch
         else placedOptions.data.height)) →
      final_placement placedOptions sampleWindowSystem
        = some (Int.tdiv (sampleWindowSystem.sw -
                    (if placedOptions.data.width = -1 then sampleWindowSystem.cw
                     else placedOptions.data.width)) 2,
                Int.tdiv (sampleWindowSystem.sh -
                    (if placedOptions.data.height = -1 then sampleWindowSystem.ch
                     else placedOptions.data.height)) 2)) ∧
    (placedOptions.data.center = false →
      (placedOptions.data.use_posx = true ∨ placedOptions.data.use_posy = true) →
      ∀ x0 y0 : Int,
        x0 = (if placedOptions.data.use_posx = true then placedOptions.data.posx
              else sampleWindowSystem.cur_x) →
        y0 = (if placedOptions.data.use_posy = true then placedOptions.data.posy
              else sampleWindowSystem.cur_y) →
        (x0 < 0 → is_gint (sampleWindowSystem.sw - sampleWindowSystem.ww) ∧
          is_gint (sampleWindowSystem.sw - sampleWindowSystem.ww + x0)) →
        (y0 < 0 → is_gint (sampleWindowSystem.sh - sampleWindowSystem.wh) ∧
          is_gint (sampleWindowSystem.sh - sampleWindowSystem.wh + y0)) →
        final_placement placedOptions sampleWindowSystem
          = some (if x0 < 0 then sampleWindowSystem.sw - sampleWindowSystem.ww + x0 else x0,
                  if y0 < 0 then sampleWindowSystem.sh - sampleWindowSystem.wh + y0 else y0) ∧
        (x0 < 0 → sampleWindowSystem.sw - sampleWindowSystem.ww + x0 + sampleWindowSystem.ww
          = sampleWindowSystem.sw - |x0|) ∧
        (y0 < 0 → sampleWindowSystem.sh - sampleWindowSystem.wh + y0 + sampleWindowSystem.wh
          = sampleWindowSystem.sh - |y0|)) ∧
    (placedOptions.data.center = false → placedOptions.data.use_posx = false →
      placedOptions.data.use_posy = false →
      final_placement placedOptions sampleWindowSystem = none)) :=
  ⟨by decide, ⟨⟨by decide, by decide⟩, ⟨by decide, by decide⟩⟩,
    final_placement_rule placedOptions sampleWindowSystem rfl rfl⟩

end Yad
